import Mathlib

/-! Shallow embedding of the School ERP CRUD backend (src/main.py,
src/schemas.py).

The service is a thin HTTP adapter over an external document store.  The store
itself (reached through database.py, which is not part of src/, and through a
MongoDB client) is modelled explicitly: a collection is a list of documents and
a document is an association list from field names to BSON-like values.
Definitions whose doc comment starts with "Modelled from the spec" embed
behaviour of the store or of database.py, following the specification's
description of those collaborators; everything else is translated directly
from src/main.py.
-/

/-- HTTP error raised by the handlers, mirroring fastapi.HTTPException. -/
structure HTTPException where
  status_code : Nat
  detail : String
  deriving DecidableEq, Repr

/-- ASCII lower-casing of one character (used for bson hex normalisation and
for case-insensitive regex matching). -/
def lowChar (c : Char) : Char :=
  if 65 ≤ c.toNat && c.toNat ≤ 90 then Char.ofNat (c.toNat + 32) else c

/-- A hexadecimal digit in either case, as accepted by bson.ObjectId. -/
def isHexCharCI (c : Char) : Bool :=
  (48 ≤ c.toNat && c.toNat ≤ 57) || (97 ≤ c.toNat && c.toNat ≤ 102) ||
    (65 ≤ c.toNat && c.toNat ≤ 70)

/-- A lowercase hexadecimal digit, as produced by str(ObjectId). -/
def isLowerHexChar (c : Char) : Bool :=
  (48 ≤ c.toNat && c.toNat ≤ 57) || (97 ≤ c.toNat && c.toNat ≤ 102)

/-- A bson ObjectId, identified with its 24-character hex rendering. -/
structure ObjectId where
  hex : String
  deriving DecidableEq, Repr

/-- A string accepted by the bson.ObjectId constructor: 24 hex digits. -/
def isValidObjectIdString (s : String) : Bool :=
  s.data.length == 24 && s.data.all isHexCharCI

/-- An ObjectId as the store itself assigns them: lowercase hex of length 24. -/
def ObjectId.Canonical (o : ObjectId) : Prop :=
  o.hex.data.length = 24 ∧ o.hex.data.all isLowerHexChar = true

instance (o : ObjectId) : Decidable o.Canonical :=
  inferInstanceAs (Decidable (_ ∧ _))

/-- to_object_id from main.py: parse the path parameter or fail with a 400. -/
def to_object_id (id_str : String) : Except HTTPException ObjectId :=
  if isValidObjectIdString id_str then
    .ok ⟨String.mk (id_str.data.map lowChar)⟩
  else
    .error ⟨400, "Invalid ID format"⟩

/-- Calendar date, as used by the pydantic date fields. -/
structure PyDate where
  year : Nat
  month : Nat
  day : Nat
  deriving DecidableEq, Repr

/-- Modelled from the spec: the store's document values (strings, numbers,
dates, identifiers).  Floating-point amounts are modelled as rationals; the
service performs no arithmetic on them.  Array values occur in no exposed
request or response shape and are left out of the model. -/
inductive Value where
  | vStr (s : String)
  | vInt (n : Int)
  | vFloat (q : ℚ)
  | vDate (dt : PyDate)
  | vOid (o : ObjectId)
  deriving DecidableEq, Repr

/-- A document: an ordered association list from field names to values. -/
abbrev Doc := List (String × Value)

/-- Field lookup in a document (first occurrence of the key). -/
def getField (d : Doc) (k : String) : Option Value :=
  (d.find? (fun p => p.1 == k)).map (fun p => p.2)

/-- The string form of the identifier value, as str() renders it. -/
def idToString : Value → Value
  | .vOid o => .vStr o.hex
  | v => v

/-- serialize from main.py: replace the native identifier under the key _id
with its string form. -/
def serialize (d : Doc) : Doc :=
  d.map (fun p => if p.1 == "_id" then (p.1, idToString p.2) else p)

/-- serialize_many from main.py. -/
def serialize_many (items : List Doc) : List Doc := items.map serialize

/-- Modelled from the spec: one step of the store's unanchored case-insensitive
regex matching, on the fragment where the dot wildcard is the only
metacharacter: does the pattern match a prefix of the text here? -/
def patMatchAt : List Char → List Char → Bool
  | [], _ => true
  | _ :: _, [] => false
  | p :: ps, c :: cs => (p == '.' || lowChar p == lowChar c) && patMatchAt ps cs

/-- Modelled from the spec: unanchored search, trying every start position. -/
def regexSearchFrom : List Char → List Char → Bool
  | p, [] => patMatchAt p []
  | p, c :: cs => patMatchAt p (c :: cs) || regexSearchFrom p cs

/-- Modelled from the spec: the store's case-insensitive regex test
(options i), on the dot-wildcard fragment. -/
def iregexSearch (pat : String) (s : String) : Bool :=
  regexSearchFrom pat.data s.data

/-- A store filter as the handlers build them: either the empty filter, or an
or of case-insensitive regex conditions over a list of fields. -/
inductive MQuery where
  | empty
  | orRegex (pat : String) (fields : List String)
  deriving DecidableEq, Repr

/-- build_search_query from main.py: empty filter for missing or empty search
text, otherwise a case-insensitive regex OR across the given fields. -/
def build_search_query (q : Option String) (fields : List String) : MQuery :=
  match q with
  | none => .empty
  | some s => if s == "" then .empty else .orRegex s fields

/-- Modelled from the spec: how the store evaluates a filter against one
document (a regex condition only matches string-valued fields). -/
def matchesQuery (query : MQuery) (d : Doc) : Bool :=
  match query with
  | .empty => true
  | .orRegex pat fields =>
    fields.any (fun f =>
      match getField d f with
      | some (.vStr s) => iregexSearch pat s
      | _ => false)

/-- Sort keys for the creation-time ordering: a type rank, a numeric
component and a string component, compared lexicographically. -/
abbrev SortKey := Lex (ℕ × Lex (ℚ × String))

/-- Modelled from the spec: the store's cross-type ordering of values, used
only to order documents by their creation-time field. -/
def valueKey : Value → SortKey
  | .vInt n => toLex (1, toLex ((n : ℚ), ""))
  | .vFloat q => toLex (1, toLex (q, ""))
  | .vStr s => toLex (2, toLex (0, s))
  | .vOid o => toLex (3, toLex (0, o.hex))
  | .vDate dt =>
    toLex (4, toLex (((dt.year * 10000 + dt.month * 100 + dt.day : ℕ) : ℚ), ""))

/-- The sort key of a document: its created_at value, a missing field ranking
lowest. -/
def createdKey (d : Doc) : SortKey :=
  match getField d "created_at" with
  | none => toLex (0, toLex (0, ""))
  | some v => valueKey v

/-- Descending creation-time order on documents. -/
def docGe (a b : Doc) : Prop := createdKey b ≤ createdKey a

instance : DecidableRel docGe := fun a b =>
  inferInstanceAs (Decidable (createdKey b ≤ createdKey a))

instance : IsTotal Doc docGe :=
  ⟨fun a b => (le_total (createdKey b) (createdKey a))⟩

instance : IsTrans Doc docGe :=
  ⟨fun _ _ _ h1 h2 => le_trans h2 h1⟩

/-- Modelled from the spec: sort("created_at", -1) — order the matching
documents by creation time, most recent first. -/
def sortDesc (l : List Doc) : List Doc := List.insertionSort docGe l

/-- Modelled from the spec: the store's find-one-by-identifier. -/
def find_one (docs : List Doc) (oid : ObjectId) : Option Doc :=
  docs.find? (fun d => getField d "_id" == some (.vOid oid))

/-- Modelled from the spec: setting one field of a document. -/
def setField (d : Doc) (k : String) (v : Value) : Doc :=
  if d.any (fun p => p.1 == k) then
    d.map (fun p => if p.1 == k then (k, v) else p)
  else d ++ [(k, v)]

/-- Modelled from the spec: applying a set-fields mutation document. -/
def applySet (d : Doc) (data : Doc) : Doc :=
  data.foldl (fun acc p => setField acc p.1 p.2) d

/-- Modelled from the spec: the store's update-one — the first document
matching the identifier receives the mutation; returns the matched count and
the new collection. -/
def update_one : List Doc → ObjectId → Doc → Nat × List Doc
  | [], _, _ => (0, [])
  | d :: rest, oid, data =>
    if getField d "_id" == some (.vOid oid) then (1, applySet d data :: rest)
    else
      let r := update_one rest oid data
      (r.1, d :: r.2)

/-- Modelled from the spec: the store's delete-one — the first document
matching the identifier is removed; returns the deleted count and the new
collection. -/
def delete_one : List Doc → ObjectId → Nat × List Doc
  | [], _ => (0, [])
  | d :: rest, oid =>
    if getField d "_id" == some (.vOid oid) then (1, rest)
    else
      let r := delete_one rest oid
      (r.1, d :: r.2)

/-- Modelled from the spec: the store's count of documents matching a filter. -/
def count_documents (docs : List Doc) (query : MQuery) : Nat :=
  (docs.filter (fun d => matchesQuery query d)).length

/-- Python dict.setdefault: add the key at the end when absent. -/
def setdefaultField (d : Doc) (k : String) (v : Value) : Doc :=
  if d.any (fun p => p.1 == k) then d else d ++ [(k, v)]

/-- The four collections backing the exposed resources. -/
structure DB where
  student : List Doc
  teacher : List Doc
  classroom : List Doc
  feeinvoice : List Doc
  deriving DecidableEq, Repr

/-- Collection access by name, as in db[name]. -/
def DB.getColl (db : DB) (name : String) : List Doc :=
  if name == "student" then db.student
  else if name == "teacher" then db.teacher
  else if name == "classroom" then db.classroom
  else if name == "feeinvoice" then db.feeinvoice
  else []

/-- Replacing one collection by name. -/
def DB.setColl (db : DB) (name : String) (docs : List Doc) : DB :=
  if name == "student" then { db with student := docs }
  else if name == "teacher" then { db with teacher := docs }
  else if name == "classroom" then { db with classroom := docs }
  else if name == "feeinvoice" then { db with feeinvoice := docs }
  else db

/-- Modelled from the spec: database.create_document (database.py is not under
src/) — insert the validated document into the named collection under a
freshly assigned identifier and return that identifier in string form. -/
def create_document (name : String) (data : Doc) (oid : ObjectId) (db : DB) :
    String × DB :=
  (oid.hex, db.setColl name (db.getColl name ++ [("_id", Value.vOid oid) :: data]))

/-- A field of a model dump: present when the payload field is not None. -/
def optField (k : String) : Option Value → Doc
  | none => []
  | some v => [(k, v)]

/-- Request model StudentCreate from main.py. -/
structure StudentCreate where
  admission_number : String
  first_name : String
  last_name : String
  class_id : Option String := none
  status : Option String := none
  deriving DecidableEq, Repr

/-- model_dump(exclude_none=True) for StudentCreate: fields in declaration
order, None fields omitted. -/
def StudentCreate.dump (p : StudentCreate) : Doc :=
  [("admission_number", Value.vStr p.admission_number),
    ("first_name", Value.vStr p.first_name),
    ("last_name", Value.vStr p.last_name)]
    ++ optField "class_id" (p.class_id.map Value.vStr)
    ++ optField "status" (p.status.map Value.vStr)

/-- Request model StudentUpdate from main.py. -/
structure StudentUpdate where
  admission_number : Option String := none
  first_name : Option String := none
  last_name : Option String := none
  class_id : Option String := none
  status : Option String := none
  deriving DecidableEq, Repr

/-- model_dump(exclude_none=True) for StudentUpdate. -/
def StudentUpdate.dump (p : StudentUpdate) : Doc :=
  optField "admission_number" (p.admission_number.map Value.vStr)
    ++ optField "first_name" (p.first_name.map Value.vStr)
    ++ optField "last_name" (p.last_name.map Value.vStr)
    ++ optField "class_id" (p.class_id.map Value.vStr)
    ++ optField "status" (p.status.map Value.vStr)

/-- Request model TeacherCreate from main.py. -/
structure TeacherCreate where
  first_name : String
  last_name : String
  email : String
  deriving DecidableEq, Repr

/-- model_dump(exclude_none=True) for TeacherCreate (no optional fields). -/
def TeacherCreate.dump (p : TeacherCreate) : Doc :=
  [("first_name", Value.vStr p.first_name),
    ("last_name", Value.vStr p.last_name),
    ("email", Value.vStr p.email)]

/-- Request model TeacherUpdate from main.py. -/
structure TeacherUpdate where
  first_name : Option String := none
  last_name : Option String := none
  email : Option String := none
  status : Option String := none
  deriving DecidableEq, Repr

/-- model_dump(exclude_none=True) for TeacherUpdate. -/
def TeacherUpdate.dump (p : TeacherUpdate) : Doc :=
  optField "first_name" (p.first_name.map Value.vStr)
    ++ optField "last_name" (p.last_name.map Value.vStr)
    ++ optField "email" (p.email.map Value.vStr)
    ++ optField "status" (p.status.map Value.vStr)

/-- Request model ClassCreate from main.py. -/
structure ClassCreate where
  name : String
  year : Int
  deriving DecidableEq, Repr

/-- model_dump(exclude_none=True) for ClassCreate (no optional fields). -/
def ClassCreate.dump (p : ClassCreate) : Doc :=
  [("name", Value.vStr p.name), ("year", Value.vInt p.year)]

/-- Request model ClassUpdate from main.py. -/
structure ClassUpdate where
  name : Option String := none
  year : Option Int := none
  class_teacher_id : Option String := none
  deriving DecidableEq, Repr

/-- model_dump(exclude_none=True) for ClassUpdate. -/
def ClassUpdate.dump (p : ClassUpdate) : Doc :=
  optField "name" (p.name.map Value.vStr)
    ++ optField "year" (p.year.map Value.vInt)
    ++ optField "class_teacher_id" (p.class_teacher_id.map Value.vStr)

/-- Request model InvoiceCreate from main.py. -/
structure InvoiceCreate where
  student_id : String
  invoice_number : String
  issue_date : PyDate
  due_date : PyDate
  amount : ℚ
  deriving DecidableEq, Repr

/-- model_dump(exclude_none=True) for InvoiceCreate (no optional fields). -/
def InvoiceCreate.dump (p : InvoiceCreate) : Doc :=
  [("student_id", Value.vStr p.student_id),
    ("invoice_number", Value.vStr p.invoice_number),
    ("issue_date", Value.vDate p.issue_date),
    ("due_date", Value.vDate p.due_date),
    ("amount", Value.vFloat p.amount)]

/-- Request model InvoiceUpdate from main.py. -/
structure InvoiceUpdate where
  student_id : Option String := none
  invoice_number : Option String := none
  issue_date : Option PyDate := none
  due_date : Option PyDate := none
  amount : Option ℚ := none
  status : Option String := none
  deriving DecidableEq, Repr

/-- model_dump(exclude_none=True) for InvoiceUpdate. -/
def InvoiceUpdate.dump (p : InvoiceUpdate) : Doc :=
  optField "student_id" (p.student_id.map Value.vStr)
    ++ optField "invoice_number" (p.invoice_number.map Value.vStr)
    ++ optField "issue_date" (p.issue_date.map Value.vDate)
    ++ optField "due_date" (p.due_date.map Value.vDate)
    ++ optField "amount" (p.amount.map Value.vFloat)
    ++ optField "status" (p.status.map Value.vStr)

/-- Response model CreateResult from main.py. -/
structure CreateResult where
  id : String
  deriving DecidableEq, Repr

/-- The literal response of a successful update. -/
structure UpdatedResp where
  updated : Bool
  deriving DecidableEq, Repr

/-- The literal response of a successful delete. -/
structure DeletedResp where
  deleted : Bool
  deriving DecidableEq, Repr

/-- A list endpoint's response: a flat sequence, or items with a total. -/
inductive ListResult where
  | flat (items : List Doc)
  | paged (items : List Doc) (total : Nat)
  deriving DecidableEq, Repr

/-- Python truthiness of an optional integer query parameter. -/
def pyTruthyInt : Option Int → Bool
  | none => false
  | some n => n != 0

/-- The shared body of the four list handlers: filter by the optional search
text over the given fields, order by creation time descending, then either
paginate or truncate to the limit. -/
def list_generic (docs : List Doc) (fields : List String) (limit : Int)
    (q : Option String) (page page_size : Option Int) : ListResult :=
  let query := build_search_query q fields
  let sorted := sortDesc (docs.filter (fun d => matchesQuery query d))
  if pyTruthyInt page && pyTruthyInt page_size then
    let p := page.getD 0
    let ps := page_size.getD 0
    let total := count_documents docs query
    let skip := ((p - 1) * ps).toNat
    let items := (sorted.drop skip).take ps.toNat
    .paged (serialize_many items) total
  else
    .flat (serialize_many (sorted.take limit.toNat))

/-- The shared body of the four get-by-id handlers. -/
def get_generic (docs : List Doc) (notFound : String) (id : String) :
    Except HTTPException Doc :=
  match to_object_id id with
  | .error e => .error e
  | .ok oid =>
    match find_one docs oid with
    | none => .error ⟨404, notFound⟩
    | some doc => .ok (serialize doc)

/-- The shared body of the four update handlers. -/
def update_generic (docs : List Doc) (notFound : String) (id : String)
    (data : Doc) : Except HTTPException (UpdatedResp × List Doc) :=
  match to_object_id id with
  | .error e => .error e
  | .ok oid =>
    let r := update_one docs oid data
    if r.1 == 0 then .error ⟨404, notFound⟩ else .ok (⟨true⟩, r.2)

/-- The shared body of the four delete handlers. -/
def delete_generic (docs : List Doc) (notFound : String) (id : String) :
    Except HTTPException (DeletedResp × List Doc) :=
  match to_object_id id with
  | .error e => .error e
  | .ok oid =>
    let r := delete_one docs oid
    if r.1 == 0 then .error ⟨404, notFound⟩ else .ok (⟨true⟩, r.2)

/-- GET /students from main.py. -/
def list_students (db : DB) (limit : Int := 50) (q : Option String := none)
    (page : Option Int := none) (page_size : Option Int := none) : ListResult :=
  list_generic db.student ["admission_number", "first_name", "last_name", "status"]
    limit q page page_size

/-- POST /students from main.py: apply the status default, insert, return the
new identifier. -/
def create_student (db : DB) (oid : ObjectId) (payload : StudentCreate) :
    CreateResult × DB :=
  let student_data := setdefaultField payload.dump "status" (Value.vStr "active")
  let r := create_document "student" student_data oid db
  (⟨r.1⟩, r.2)

/-- GET /students/id from main.py. -/
def get_student (db : DB) (id : String) : Except HTTPException Doc :=
  get_generic db.student "Student not found" id

/-- PUT /students/id from main.py. -/
def update_student (db : DB) (id : String) (payload : StudentUpdate) :
    Except HTTPException (UpdatedResp × DB) :=
  match update_generic db.student "Student not found" id payload.dump with
  | .error e => .error e
  | .ok r => .ok (r.1, { db with student := r.2 })

/-- DELETE /students/id from main.py. -/
def delete_student (db : DB) (id : String) :
    Except HTTPException (DeletedResp × DB) :=
  match delete_generic db.student "Student not found" id with
  | .error e => .error e
  | .ok r => .ok (r.1, { db with student := r.2 })

/-- GET /teachers from main.py. -/
def list_teachers (db : DB) (limit : Int := 50) (q : Option String := none)
    (page : Option Int := none) (page_size : Option Int := none) : ListResult :=
  list_generic db.teacher ["first_name", "last_name", "email", "status"]
    limit q page page_size

/-- POST /teachers from main.py (no defaults to apply). -/
def create_teacher (db : DB) (oid : ObjectId) (payload : TeacherCreate) :
    CreateResult × DB :=
  let r := create_document "teacher" payload.dump oid db
  (⟨r.1⟩, r.2)

/-- GET /teachers/id from main.py. -/
def get_teacher (db : DB) (id : String) : Except HTTPException Doc :=
  get_generic db.teacher "Teacher not found" id

/-- PUT /teachers/id from main.py. -/
def update_teacher (db : DB) (id : String) (payload : TeacherUpdate) :
    Except HTTPException (UpdatedResp × DB) :=
  match update_generic db.teacher "Teacher not found" id payload.dump with
  | .error e => .error e
  | .ok r => .ok (r.1, { db with teacher := r.2 })

/-- DELETE /teachers/id from main.py. -/
def delete_teacher (db : DB) (id : String) :
    Except HTTPException (DeletedResp × DB) :=
  match delete_generic db.teacher "Teacher not found" id with
  | .error e => .error e
  | .ok r => .ok (r.1, { db with teacher := r.2 })

/-- GET /classes from main.py. -/
def list_classes (db : DB) (limit : Int := 50) (q : Option String := none)
    (page : Option Int := none) (page_size : Option Int := none) : ListResult :=
  list_generic db.classroom ["name", "year", "class_teacher_id"]
    limit q page page_size

/-- POST /classes from main.py (no defaults to apply). -/
def create_class (db : DB) (oid : ObjectId) (payload : ClassCreate) :
    CreateResult × DB :=
  let r := create_document "classroom" payload.dump oid db
  (⟨r.1⟩, r.2)

/-- GET /classes/id from main.py. -/
def get_class (db : DB) (id : String) : Except HTTPException Doc :=
  get_generic db.classroom "Class not found" id

/-- PUT /classes/id from main.py. -/
def update_class (db : DB) (id : String) (payload : ClassUpdate) :
    Except HTTPException (UpdatedResp × DB) :=
  match update_generic db.classroom "Class not found" id payload.dump with
  | .error e => .error e
  | .ok r => .ok (r.1, { db with classroom := r.2 })

/-- DELETE /classes/id from main.py. -/
def delete_class (db : DB) (id : String) :
    Except HTTPException (DeletedResp × DB) :=
  match delete_generic db.classroom "Class not found" id with
  | .error e => .error e
  | .ok r => .ok (r.1, { db with classroom := r.2 })

/-- GET /invoices from main.py. -/
def list_invoices (db : DB) (limit : Int := 50) (q : Option String := none)
    (page : Option Int := none) (page_size : Option Int := none) : ListResult :=
  list_generic db.feeinvoice ["invoice_number", "student_id", "status"]
    limit q page page_size

/-- POST /invoices from main.py: apply the status default, insert, return the
new identifier. -/
def create_invoice (db : DB) (oid : ObjectId) (payload : InvoiceCreate) :
    CreateResult × DB :=
  let data := setdefaultField payload.dump "status" (Value.vStr "unpaid")
  let r := create_document "feeinvoice" data oid db
  (⟨r.1⟩, r.2)

/-- GET /invoices/id from main.py. -/
def get_invoice (db : DB) (id : String) : Except HTTPException Doc :=
  get_generic db.feeinvoice "Invoice not found" id

/-- PUT /invoices/id from main.py. -/
def update_invoice (db : DB) (id : String) (payload : InvoiceUpdate) :
    Except HTTPException (UpdatedResp × DB) :=
  match update_generic db.feeinvoice "Invoice not found" id payload.dump with
  | .error e => .error e
  | .ok r => .ok (r.1, { db with feeinvoice := r.2 })

/-- DELETE /invoices/id from main.py. -/
def delete_invoice (db : DB) (id : String) :
    Except HTTPException (DeletedResp × DB) :=
  match delete_generic db.feeinvoice "Invoice not found" id with
  | .error e => .error e
  | .ok r => .ok (r.1, { db with feeinvoice := r.2 })

/-- Configuration visible to the diagnostics endpoint through os.getenv. -/
structure Env where
  database_url : Option String := none
  database_name : Option String := none
  deriving DecidableEq, Repr

/-- Python truthiness of an os.getenv result: set and non-empty. -/
def pyTruthyStr : Option String → Bool
  | none => false
  | some s => s != ""

instance {ε α : Type _} [DecidableEq ε] [DecidableEq α] :
    DecidableEq (Except ε α) := fun x y =>
  match x, y with
  | .ok a, .ok b =>
    if h : a = b then .isTrue (by rw [h]) else .isFalse (fun hc => h (Except.ok.inj hc))
  | .error a, .error b =>
    if h : a = b then .isTrue (by rw [h]) else .isFalse (fun hc => h (Except.error.inj hc))
  | .ok _, .error _ => .isFalse (fun hc => Except.noConfusion hc)
  | .error _, .ok _ => .isFalse (fun hc => Except.noConfusion hc)

/-- Modelled from the spec: the observable state of the store client while the
diagnostics endpoint runs — importing the handle may fail, the handle may be
uninitialised, or it is connected under a name with a listing call that
either returns the collection names or fails. -/
inductive DbState where
  | importError (msg : String)
  | uninitialized
  | connected (name : String) (listing : Except String (List String))
  deriving DecidableEq, Repr

/-- The response dictionary of GET /test. -/
structure TestResponse where
  backend : String
  database : String
  database_url : Option String
  database_name : Option String
  connection_status : String
  collections : List String
  deriving DecidableEq, Repr

/-- GET /test from main.py: report liveness, store connectivity, and presence
of the two configuration values; the two configuration fields are overwritten
unconditionally at the end from environment truthiness. -/
def test_database (env : Env) (dbs : DbState) : TestResponse :=
  let r0 : TestResponse :=
    { backend := "✅ Running", database := "❌ Not Available",
      database_url := none, database_name := none,
      connection_status := "Not Connected", collections := [] }
  let r1 :=
    match dbs with
    | .importError e => { r0 with database := "❌ Error: " ++ e.take 80 }
    | .uninitialized => { r0 with database := "⚠️  Available but not initialized" }
    | .connected name listing =>
      let r := { r0 with
        database := "✅ Connected & Working",
        database_url := some "✅ Set",
        database_name := some name,
        connection_status := "Connected" }
      match listing with
      | .ok cols => { r with collections := cols.take 20 }
      | .error e => { r with database := "⚠️  Connected but Error: " ++ e.take 80 }
  { r1 with
    database_url := some (if pyTruthyStr env.database_url then "✅ Set" else "❌ Not Set"),
    database_name := some (if pyTruthyStr env.database_name then "✅ Set" else "❌ Not Set") }

/-! ## Supporting lemmas -/

/-- The key list of a document. -/
def keys (d : Doc) : List String := d.map Prod.fst

/-- No document of the collection carries the given identifier. -/
def FreshId (docs : List Doc) (oid : ObjectId) : Prop :=
  ∀ d ∈ docs, getField d "_id" ≠ some (Value.vOid oid)

instance (docs : List Doc) (oid : ObjectId) : Decidable (FreshId docs oid) :=
  inferInstanceAs (Decidable (∀ d ∈ docs, _ ≠ _))

/-- The store's invariant that identifiers are unique within a collection. -/
def UniqueIds (docs : List Doc) : Prop :=
  docs.Pairwise (fun a b => getField a "_id" ≠ getField b "_id")

instance (docs : List Doc) : Decidable (UniqueIds docs) :=
  inferInstanceAs (Decidable (docs.Pairwise _))

theorem lowChar_of_lowerHex {c : Char} (h : isLowerHexChar c = true) :
    lowChar c = c := by
  simp only [isLowerHexChar, Bool.or_eq_true, Bool.and_eq_true,
    decide_eq_true_eq] at h
  have hneg : ¬((65 ≤ c.toNat && c.toNat ≤ 90) = true) := by
    simp only [Bool.and_eq_true, decide_eq_true_eq, not_and]
    omega
  simp [lowChar, hneg]

theorem isHexCharCI_of_lowerHex {c : Char} (h : isLowerHexChar c = true) :
    isHexCharCI c = true := by
  simp only [isLowerHexChar, Bool.or_eq_true, Bool.and_eq_true,
    decide_eq_true_eq] at h
  simp only [isHexCharCI, Bool.or_eq_true, Bool.and_eq_true, decide_eq_true_eq]
  omega

theorem map_fix_of_all {p : Char → Bool} {f : Char → Char}
    (hf : ∀ c, p c = true → f c = c) :
    ∀ l : List Char, l.all p = true → l.map f = l := by
  intro l
  induction l with
  | nil => intro _; rfl
  | cons c cs ih =>
    intro h
    simp only [List.all_cons, Bool.and_eq_true] at h
    simp [hf c h.1, ih h.2]

theorem to_object_id_canonical {o : ObjectId} (h : o.Canonical) :
    to_object_id o.hex = .ok o := by
  obtain ⟨hlen, hall⟩ := h
  have hvalid : isValidObjectIdString o.hex = true := by
    simp only [isValidObjectIdString, Bool.and_eq_true, beq_iff_eq]
    refine ⟨hlen, ?_⟩
    simp only [List.all_eq_true] at hall ⊢
    exact fun c hc => isHexCharCI_of_lowerHex (hall c hc)
  simp only [to_object_id, hvalid, if_true]
  rw [map_fix_of_all (fun c hc => lowChar_of_lowerHex hc) _ hall]

theorem to_object_id_invalid {s : String} (h : isValidObjectIdString s = false) :
    to_object_id s = .error ⟨400, "Invalid ID format"⟩ := by
  simp [to_object_id, h]

theorem getField_cons (p : String × Value) (d : Doc) (k : String) :
    getField (p :: d) k = if p.1 == k then some p.2 else getField d k := by
  by_cases h : p.1 == k <;> simp [getField, List.find?_cons, h]

theorem getField_eq_none_of_not_mem_keys {d : Doc} {k : String}
    (h : k ∉ keys d) : getField d k = none := by
  induction d with
  | nil => rfl
  | cons p rest ih =>
    simp only [keys, List.map_cons, List.mem_cons, not_or] at h
    rw [getField_cons]
    have hp : (p.1 == k) = false := by
      simp only [beq_eq_false_iff_ne, ne_eq]
      exact fun he => h.1 (he ▸ rfl)
    simp only [hp, if_false]
    exact ih (by simpa [keys] using h.2)

theorem find_one_eq_none {docs : List Doc} {oid : ObjectId}
    (h : FreshId docs oid) : find_one docs oid = none := by
  apply List.find?_eq_none.mpr
  intro d hd
  simp only [beq_iff_eq]
  exact h d hd

theorem find_one_append_fresh {docs : List Doc} {oid : ObjectId}
    (h : FreshId docs oid) (d0 : Doc)
    (hd0 : getField d0 "_id" = some (Value.vOid oid)) :
    find_one (docs ++ [d0]) oid = some d0 := by
  induction docs with
  | nil => simp [find_one, List.find?, hd0]
  | cons a rest ih =>
    have ha : (getField a "_id" == some (Value.vOid oid)) = false := by
      simp only [beq_eq_false_iff_ne, ne_eq]
      exact h a (List.mem_cons_self a rest)
    simp only [find_one, List.cons_append, List.find?_cons, ha]
    exact ih (fun d hd => h d (List.mem_cons_of_mem a hd))

theorem serialize_no_id {d : Doc} (h : ∀ p ∈ d, p.1 ≠ "_id") :
    serialize d = d := by
  induction d with
  | nil => rfl
  | cons p rest ih =>
    have hp : (p.1 == "_id") = false := by
      simp only [beq_eq_false_iff_ne, ne_eq]
      exact h p (List.mem_cons_self p rest)
    simp only [serialize, List.map_cons, hp, if_false]
    have := ih (fun q hq => h q (List.mem_cons_of_mem p hq))
    simpa [serialize] using this

theorem serialize_cons_oid {data : Doc} (h : ∀ p ∈ data, p.1 ≠ "_id")
    (oid : ObjectId) :
    serialize (("_id", Value.vOid oid) :: data) =
      ("_id", Value.vStr oid.hex) :: data := by
  have htail := serialize_no_id h
  simp only [serialize, List.map_cons] at htail ⊢
  rw [htail]
  simp [idToString]

theorem beq_symm_false {a b : String} (h : (a == b) = false) :
    (b == a) = false := by
  rw [beq_eq_false_iff_ne] at h ⊢
  exact fun he => h he.symm

theorem getField_map_set_self {k : String} {v : Value} :
    ∀ {d : Doc}, d.any (fun p => p.1 == k) = true →
      getField (d.map (fun p => if p.1 == k then (k, v) else p)) k = some v := by
  intro d
  induction d with
  | nil => intro h; exact Bool.noConfusion h
  | cons p rest ih =>
    intro h
    cases hp : (p.1 == k) with
    | true =>
      simp only [List.map_cons, hp, if_true]
      rw [getField_cons]
      simp
    | false =>
      simp only [List.any_cons, hp, Bool.false_or] at h
      simp only [List.map_cons, hp, Bool.false_eq_true, if_false]
      rw [getField_cons]
      simp only [hp, Bool.false_eq_true, if_false]
      exact ih h

theorem getField_append_single_self {k : String} {v : Value} :
    ∀ {d : Doc}, d.any (fun p => p.1 == k) = false →
      getField (d ++ [(k, v)]) k = some v := by
  intro d
  induction d with
  | nil =>
    intro _
    rw [List.nil_append, getField_cons]
    simp
  | cons p rest ih =>
    intro h
    simp only [List.any_cons, Bool.or_eq_false_iff] at h
    rw [List.cons_append, getField_cons]
    simp only [h.1, Bool.false_eq_true, if_false]
    exact ih h.2

theorem getField_map_set_ne {k kp : String} {v : Value} (h : (kp == k) = false) :
    ∀ (d : Doc),
      getField (d.map (fun p => if p.1 == k then (k, v) else p)) kp =
        getField d kp := by
  intro d
  induction d with
  | nil => rfl
  | cons p rest ih =>
    cases hp : (p.1 == k) with
    | true =>
      have hkkp : (k == kp) = false := beq_symm_false h
      have hpkp : (p.1 == kp) = false := by
        rw [beq_iff_eq] at hp
        rw [hp]
        exact hkkp
      simp only [List.map_cons, hp, if_true]
      rw [getField_cons, getField_cons]
      simp only [hkkp, hpkp, Bool.false_eq_true, if_false]
      exact ih
    | false =>
      simp only [List.map_cons, hp, Bool.false_eq_true, if_false]
      rw [getField_cons, getField_cons]
      cases hpp : (p.1 == kp) with
      | true => simp [hpp]
      | false =>
        simp only [hpp, Bool.false_eq_true, if_false]
        exact ih

theorem getField_append_single_ne {k kp : String} {v : Value}
    (h : (kp == k) = false) :
    ∀ (d : Doc), getField (d ++ [(k, v)]) kp = getField d kp := by
  intro d
  induction d with
  | nil =>
    have hkkp : (k == kp) = false := beq_symm_false h
    rw [List.nil_append, getField_cons]
    simp [hkkp, getField]
  | cons p rest ih =>
    rw [List.cons_append, getField_cons, getField_cons]
    cases hpp : (p.1 == kp) with
    | true => simp [hpp]
    | false =>
      simp only [hpp, Bool.false_eq_true, if_false]
      exact ih

theorem getField_setField_self (d : Doc) (k : String) (v : Value) :
    getField (setField d k v) k = some v := by
  unfold setField
  cases hany : d.any (fun p => p.1 == k) with
  | true =>
    simp only [hany, if_true]
    exact getField_map_set_self hany
  | false =>
    simp only [hany, Bool.false_eq_true, if_false]
    exact getField_append_single_self hany

theorem getField_setField_ne {k kp : String} (h : (kp == k) = false)
    (d : Doc) (v : Value) : getField (setField d k v) kp = getField d kp := by
  unfold setField
  cases hany : d.any (fun p => p.1 == k) with
  | true =>
    simp only [hany, if_true]
    exact getField_map_set_ne h d
  | false =>
    simp only [hany, Bool.false_eq_true, if_false]
    exact getField_append_single_ne h d

theorem applySet_cons (d : Doc) (p : String × Value) (rest : Doc) :
    applySet d (p :: rest) = applySet (setField d p.1 p.2) rest := rfl

theorem getField_applySet_of_none :
    ∀ {data : Doc} (d : Doc) {k : String}, getField data k = none →
      getField (applySet d data) k = getField d k := by
  intro data
  induction data with
  | nil => intro d k _; rfl
  | cons p rest ih =>
    intro d k h
    rw [getField_cons] at h
    cases hp : (p.1 == k) with
    | true => simp [hp] at h
    | false =>
      simp only [hp, Bool.false_eq_true, if_false] at h
      rw [applySet_cons, ih _ h]
      exact getField_setField_ne (beq_symm_false hp) d p.2

theorem getField_applySet_of_some :
    ∀ {data : Doc}, (keys data).Nodup →
      ∀ {k : String} {v : Value}, getField data k = some v →
        ∀ d : Doc, getField (applySet d data) k = some v := by
  intro data
  induction data with
  | nil => intro _ k v h; exact Option.noConfusion h
  | cons p rest ih =>
    intro hnd k v h d
    simp only [keys, List.map_cons, List.nodup_cons] at hnd
    rw [getField_cons] at h
    cases hp : (p.1 == k) with
    | true =>
      simp only [hp, if_true, Option.some.injEq] at h
      rw [beq_iff_eq] at hp
      have hrest : getField rest k = none := by
        apply getField_eq_none_of_not_mem_keys
        rw [← hp]
        exact hnd.1
      rw [applySet_cons, getField_applySet_of_none _ hrest, ← hp, ← h]
      exact getField_setField_self d p.1 p.2
    | false =>
      simp only [hp, Bool.false_eq_true, if_false] at h
      rw [applySet_cons]
      exact ih hnd.2 h (setField d p.1 p.2)

theorem update_one_of_none {docs : List Doc} {oid : ObjectId} (data : Doc)
    (h : find_one docs oid = none) : update_one docs oid data = (0, docs) := by
  induction docs with
  | nil => rfl
  | cons d rest ih =>
    rw [find_one, List.find?_cons] at h
    cases hd : (getField d "_id" == some (Value.vOid oid)) with
    | true => simp [hd] at h
    | false =>
      simp only [hd, Bool.false_eq_true, if_false] at h ⊢
      rw [update_one]
      simp only [hd, Bool.false_eq_true, if_false]
      rw [ih h]

theorem delete_one_of_none {docs : List Doc} {oid : ObjectId}
    (h : find_one docs oid = none) : delete_one docs oid = (0, docs) := by
  induction docs with
  | nil => rfl
  | cons d rest ih =>
    rw [find_one, List.find?_cons] at h
    cases hd : (getField d "_id" == some (Value.vOid oid)) with
    | true => simp [hd] at h
    | false =>
      simp only [hd, Bool.false_eq_true, if_false] at h ⊢
      rw [delete_one]
      simp only [hd, Bool.false_eq_true, if_false]
      rw [ih h]

theorem update_one_found {docs : List Doc} {oid : ObjectId} {data : Doc}
    {d : Doc} (h : find_one docs oid = some d)
    (hid : getField data "_id" = none) :
    (update_one docs oid data).1 = 1 ∧
      find_one (update_one docs oid data).2 oid = some (applySet d data) := by
  induction docs with
  | nil => exact Option.noConfusion h
  | cons a rest ih =>
    rw [find_one, List.find?_cons] at h
    cases ha : (getField a "_id" == some (Value.vOid oid)) with
    | true =>
      simp only [ha, if_true, Option.some.injEq] at h
      subst h
      rw [update_one]
      simp only [ha, if_true]
      refine ⟨by trivial, ?_⟩
      have hkeep : getField (applySet a data) "_id" = getField a "_id" :=
        getField_applySet_of_none a hid
      rw [find_one, List.find?_cons]
      have : (getField (applySet a data) "_id" == some (Value.vOid oid)) = true := by
        rw [hkeep]
        exact ha
      simp [this]
    | false =>
      simp only [ha, Bool.false_eq_true, if_false] at h
      rw [update_one]
      simp only [ha, Bool.false_eq_true, if_false]
      obtain ⟨ih1, ih2⟩ := ih h
      refine ⟨ih1, ?_⟩
      rw [find_one, List.find?_cons]
      simp only [ha, Bool.false_eq_true, if_false]
      exact ih2

theorem delete_one_found {docs : List Doc} {oid : ObjectId} {d : Doc}
    (hu : UniqueIds docs) (h : find_one docs oid = some d) :
    (delete_one docs oid).1 = 1 ∧
      find_one (delete_one docs oid).2 oid = none := by
  induction docs with
  | nil => exact Option.noConfusion h
  | cons a rest ih =>
    rw [UniqueIds, List.pairwise_cons] at hu
    rw [find_one, List.find?_cons] at h
    cases ha : (getField a "_id" == some (Value.vOid oid)) with
    | true =>
      simp only [ha, if_true, Option.some.injEq] at h
      rw [delete_one]
      simp only [ha, if_true]
      refine ⟨by trivial, ?_⟩
      apply List.find?_eq_none.mpr
      intro e he
      rw [beq_iff_eq] at ha ⊢
      intro hcontra
      exact hu.1 e he (by rw [ha, hcontra])
    | false =>
      simp only [ha, Bool.false_eq_true, if_false] at h
      rw [delete_one]
      simp only [ha, Bool.false_eq_true, if_false]
      obtain ⟨ih1, ih2⟩ := ih hu.2 h
      refine ⟨ih1, ?_⟩
      rw [find_one, List.find?_cons]
      simp only [ha, Bool.false_eq_true, if_false]
      exact ih2

theorem delete_one_pos {docs : List Doc} {oid : ObjectId}
    (h : (delete_one docs oid).1 ≠ 0) : ∃ d, find_one docs oid = some d := by
  cases hf : find_one docs oid with
  | none => exact absurd (by rw [delete_one_of_none hf]) h
  | some d => exact ⟨d, rfl⟩

theorem update_one_pos {docs : List Doc} {oid : ObjectId} {data : Doc}
    (h : (update_one docs oid data).1 ≠ 0) :
    ∃ d, find_one docs oid = some d := by
  cases hf : find_one docs oid with
  | none => exact absurd (by rw [update_one_of_none data hf]) h
  | some d => exact ⟨d, rfl⟩

theorem keys_append (a b : Doc) : keys (a ++ b) = keys a ++ keys b :=
  List.map_append _ a b

theorem keys_optField_sublist (k : String) (v : Option Value) :
    List.Sublist (keys (optField k v)) [k] := by
  cases v with
  | none => exact List.nil_sublist _
  | some w => exact List.Sublist.refl _

theorem studentCreate_dump_keys (p : StudentCreate) :
    List.Sublist (keys p.dump)
      ["admission_number", "first_name", "last_name", "class_id", "status"] := by
  show List.Sublist (keys (_ ++ optField "class_id" _ ++ optField "status" _)) _
  rw [keys_append, keys_append]
  have h1 : keys [("admission_number", Value.vStr p.admission_number),
      ("first_name", Value.vStr p.first_name),
      ("last_name", Value.vStr p.last_name)] =
      ["admission_number", "first_name", "last_name"] := rfl
  rw [h1]
  exact List.Sublist.append (List.Sublist.append (List.Sublist.refl _)
    (keys_optField_sublist _ _)) (keys_optField_sublist _ _)

theorem studentUpdate_dump_keys (p : StudentUpdate) :
    List.Sublist (keys p.dump)
      ["admission_number", "first_name", "last_name", "class_id", "status"] := by
  show List.Sublist (keys (optField "admission_number" _ ++ optField "first_name" _ ++
    optField "last_name" _ ++ optField "class_id" _ ++ optField "status" _)) _
  rw [keys_append, keys_append, keys_append, keys_append]
  exact List.Sublist.append (List.Sublist.append (List.Sublist.append
    (List.Sublist.append (keys_optField_sublist _ _) (keys_optField_sublist _ _))
    (keys_optField_sublist _ _)) (keys_optField_sublist _ _))
    (keys_optField_sublist _ _)

theorem teacherCreate_dump_keys (p : TeacherCreate) :
    List.Sublist (keys p.dump) ["first_name", "last_name", "email"] :=
  List.Sublist.refl _

theorem teacherUpdate_dump_keys (p : TeacherUpdate) :
    List.Sublist (keys p.dump) ["first_name", "last_name", "email", "status"] := by
  show List.Sublist (keys (optField "first_name" _ ++ optField "last_name" _ ++
    optField "email" _ ++ optField "status" _)) _
  rw [keys_append, keys_append, keys_append]
  exact List.Sublist.append (List.Sublist.append (List.Sublist.append
    (keys_optField_sublist _ _) (keys_optField_sublist _ _))
    (keys_optField_sublist _ _)) (keys_optField_sublist _ _)

theorem classCreate_dump_keys (p : ClassCreate) :
    List.Sublist (keys p.dump) ["name", "year"] :=
  List.Sublist.refl _

theorem classUpdate_dump_keys (p : ClassUpdate) :
    List.Sublist (keys p.dump) ["name", "year", "class_teacher_id"] := by
  show List.Sublist (keys (optField "name" _ ++ optField "year" _ ++
    optField "class_teacher_id" _)) _
  rw [keys_append, keys_append]
  exact List.Sublist.append (List.Sublist.append (keys_optField_sublist _ _)
    (keys_optField_sublist _ _)) (keys_optField_sublist _ _)

theorem invoiceCreate_dump_keys (p : InvoiceCreate) :
    List.Sublist (keys p.dump)
      ["student_id", "invoice_number", "issue_date", "due_date", "amount"] :=
  List.Sublist.refl _

theorem invoiceUpdate_dump_keys (p : InvoiceUpdate) :
    List.Sublist (keys p.dump) ["student_id", "invoice_number", "issue_date",
      "due_date", "amount", "status"] := by
  show List.Sublist (keys (optField "student_id" _ ++ optField "invoice_number" _ ++
    optField "issue_date" _ ++ optField "due_date" _ ++ optField "amount" _ ++
    optField "status" _)) _
  rw [keys_append, keys_append, keys_append, keys_append, keys_append]
  exact List.Sublist.append (List.Sublist.append (List.Sublist.append
    (List.Sublist.append (List.Sublist.append (keys_optField_sublist _ _)
    (keys_optField_sublist _ _)) (keys_optField_sublist _ _))
    (keys_optField_sublist _ _)) (keys_optField_sublist _ _))
    (keys_optField_sublist _ _)

theorem no_id_of_keys_sublist {d : Doc} {L : List String}
    (hsub : List.Sublist (keys d) L) (hL : "_id" ∉ L) : ∀ p ∈ d, p.1 ≠ "_id" := by
  intro p hp he
  apply hL
  apply hsub.subset
  rw [← he] at *
  exact List.mem_map_of_mem Prod.fst hp

theorem getField_dump_eq_none_of_id {d : Doc} {L : List String}
    (hsub : List.Sublist (keys d) L) (hL : "_id" ∉ L) : getField d "_id" = none := by
  apply getField_eq_none_of_not_mem_keys
  intro hmem
  exact hL (hsub.subset hmem)

theorem nodup_keys_of_sublist {d : Doc} {L : List String}
    (hsub : List.Sublist (keys d) L) (hL : L.Nodup) : (keys d).Nodup :=
  hL.sublist hsub

theorem sortDesc_sorted (l : List Doc) : List.Sorted docGe (sortDesc l) :=
  List.sorted_insertionSort docGe l

theorem getField_serialize_ne {k : String} (h : (k == "_id") = false)
    (d : Doc) : getField (serialize d) k = getField d k := by
  induction d with
  | nil => rfl
  | cons p rest ih =>
    simp only [serialize, List.map_cons]
    cases hp : (p.1 == "_id") with
    | true =>
      simp only [hp, if_true]
      rw [getField_cons, getField_cons]
      rw [beq_iff_eq] at hp
      have hk : (p.1 == k) = false := by
        rw [hp]
        exact beq_symm_false h
      simp only [hk, Bool.false_eq_true, if_false]
      simpa [serialize] using ih
    | false =>
      simp only [hp, Bool.false_eq_true, if_false]
      rw [getField_cons, getField_cons]
      cases hk : (p.1 == k) with
      | true => simp [hk]
      | false =>
        simp only [hk, Bool.false_eq_true, if_false]
        simpa [serialize] using ih

theorem createdKey_serialize (d : Doc) : createdKey (serialize d) = createdKey d := by
  unfold createdKey
  rw [getField_serialize_ne (by decide) d]

theorem sorted_serialize_many {l : List Doc} (h : List.Sorted docGe l) :
    List.Sorted docGe (serialize_many l) := by
  unfold serialize_many
  rw [List.Sorted, List.pairwise_map]
  apply h.imp
  intro a b hab
  unfold docGe at hab ⊢
  rw [createdKey_serialize, createdKey_serialize]
  exact hab

theorem sorted_take {l : List Doc} (h : List.Sorted docGe l) (n : Nat) :
    List.Sorted docGe (l.take n) :=
  h.sublist (List.take_sublist n l)

theorem length_serialize_many (l : List Doc) :
    (serialize_many l).length = l.length :=
  List.length_map l serialize

theorem get_generic_400 {docs : List Doc} {msg id : String}
    (h : isValidObjectIdString id = false) :
    get_generic docs msg id = .error ⟨400, "Invalid ID format"⟩ := by
  rw [get_generic, to_object_id_invalid h]

theorem update_generic_400 {docs : List Doc} {msg id : String} {data : Doc}
    (h : isValidObjectIdString id = false) :
    update_generic docs msg id data = .error ⟨400, "Invalid ID format"⟩ := by
  rw [update_generic, to_object_id_invalid h]

theorem delete_generic_400 {docs : List Doc} {msg id : String}
    (h : isValidObjectIdString id = false) :
    delete_generic docs msg id = .error ⟨400, "Invalid ID format"⟩ := by
  rw [delete_generic, to_object_id_invalid h]

theorem get_generic_404 {docs : List Doc} {msg id : String} {oid : ObjectId}
    (h : to_object_id id = .ok oid) (hn : find_one docs oid = none) :
    get_generic docs msg id = .error ⟨404, msg⟩ := by
  simp [get_generic, h, hn]

theorem update_generic_404 {docs : List Doc} {msg id : String} {data : Doc}
    {oid : ObjectId} (h : to_object_id id = .ok oid)
    (hn : find_one docs oid = none) :
    update_generic docs msg id data = .error ⟨404, msg⟩ := by
  simp [update_generic, h, update_one_of_none data hn]

theorem delete_generic_404 {docs : List Doc} {msg id : String} {oid : ObjectId}
    (h : to_object_id id = .ok oid) (hn : find_one docs oid = none) :
    delete_generic docs msg id = .error ⟨404, msg⟩ := by
  simp [delete_generic, h, delete_one_of_none hn]

theorem get_generic_found {docs : List Doc} {msg id : String} {oid : ObjectId}
    {d : Doc} (h : to_object_id id = .ok oid) (hf : find_one docs oid = some d) :
    get_generic docs msg id = .ok (serialize d) := by
  simp [get_generic, h, hf]

theorem get_generic_insert {docs : List Doc} {oid : ObjectId}
    (hc : oid.Canonical) (hfresh : FreshId docs oid) {data : Doc}
    (hkeys : ∀ p ∈ data, p.1 ≠ "_id") (msg : String) :
    get_generic (docs ++ [("_id", Value.vOid oid) :: data]) msg oid.hex =
      .ok (("_id", Value.vStr oid.hex) :: data) := by
  have hfind := find_one_append_fresh hfresh (("_id", Value.vOid oid) :: data)
    (by rw [getField_cons]; simp)
  simp [get_generic, to_object_id_canonical hc, hfind, serialize_cons_oid hkeys]

theorem update_generic_found {docs : List Doc} (msg : String) {id : String}
    {data : Doc} {oid : ObjectId} {d : Doc} (h : to_object_id id = .ok oid)
    (hf : find_one docs oid = some d) (hid : getField data "_id" = none) :
    update_generic docs msg id data =
        .ok (⟨true⟩, (update_one docs oid data).2) ∧
      find_one (update_one docs oid data).2 oid = some (applySet d data) := by
  obtain ⟨h1, h2⟩ := update_one_found hf hid
  refine ⟨?_, h2⟩
  have hz : ((update_one docs oid data).1 == 0) = false := by
    rw [h1]
    decide
  simp [update_generic, h, hz]

theorem delete_generic_ok {docs : List Doc} {msg id : String} {oid : ObjectId}
    (h : to_object_id id = .ok oid) (hu : UniqueIds docs)
    {resp : DeletedResp} {rest : List Doc}
    (hd : delete_generic docs msg id = .ok (resp, rest)) :
    resp = ⟨true⟩ ∧ find_one rest oid = none := by
  simp only [delete_generic, h] at hd
  cases hz : ((delete_one docs oid).1 == 0) with
  | true => rw [hz] at hd; simp at hd
  | false =>
    rw [hz] at hd
    simp only [Bool.false_eq_true, if_false, Except.ok.injEq, Prod.mk.injEq] at hd
    obtain ⟨hresp, hrest⟩ := hd
    have hpos : (delete_one docs oid).1 ≠ 0 := by
      rw [beq_eq_false_iff_ne] at hz
      exact hz
    obtain ⟨d, hfind⟩ := delete_one_pos hpos
    obtain ⟨_, hnone⟩ := delete_one_found hu hfind
    rw [← hrest]
    exact ⟨hresp.symm, hnone⟩

/-- Does the needle match at the head of the haystack, literally? -/
def leadsWith : List Char → List Char → Bool
  | [], _ => true
  | _ :: _, [] => false
  | a :: as, b :: bs => a == b && leadsWith as bs

/-- Literal substring containment on character lists. -/
def containsSub (n : List Char) : List Char → Bool
  | [] => leadsWith n []
  | c :: t => leadsWith n (c :: t) || containsSub n t

/-- Case-insensitive substring containment, the reading used by the claim. -/
def containsCI (needle hay : String) : Bool :=
  containsSub (needle.data.map lowChar) (hay.data.map lowChar)

/-- The metacharacters of the store's regex dialect. -/
def isMetaChar (c : Char) : Bool :=
  (['.', '*', '+', '?', '[', ']', '(', ')', '\\', '^', '$', '|',
    '\x7b', '\x7d'] : List Char).contains c

/-- A pattern free of regex metacharacters. -/
def plainPattern (q : String) : Bool :=
  q.data.all (fun c => !isMetaChar c)

/-- The search predicate in the words of the claim: some searchable field
contains the search text as a case-insensitive substring.  Stated only for
comparison with the filter the code actually builds. -/
def claimSubstrMatch (q : String) (fields : List String) (d : Doc) : Bool :=
  fields.any (fun f =>
    match getField d f with
    | some (.vStr s) => containsCI q s
    | _ => false)

theorem not_dot_of_plain {a : Char} (h : (!isMetaChar a) = true) :
    (a == '.') = false := by
  cases ha : (a == '.') with
  | false => rfl
  | true =>
    rw [beq_iff_eq] at ha
    subst ha
    exact absurd h (by decide)

theorem patMatchAt_plain :
    ∀ (p t : List Char), p.all (fun c => !isMetaChar c) = true →
      patMatchAt p t = leadsWith (p.map lowChar) (t.map lowChar) := by
  intro p
  induction p with
  | nil => intro t _; cases t <;> rfl
  | cons a ps ih =>
    intro t h
    simp only [List.all_cons, Bool.and_eq_true] at h
    cases t with
    | nil => rfl
    | cons c cs =>
      rw [patMatchAt, List.map_cons, List.map_cons, leadsWith]
      rw [not_dot_of_plain h.1, Bool.false_or]
      rw [ih cs h.2]

theorem regexSearchFrom_plain {p : List Char}
    (hp : p.all (fun c => !isMetaChar c) = true) :
    ∀ (t : List Char),
      regexSearchFrom p t = containsSub (p.map lowChar) (t.map lowChar) := by
  intro t
  induction t with
  | nil =>
    rw [regexSearchFrom, List.map_nil, containsSub]
    exact patMatchAt_plain p [] hp
  | cons c cs ih =>
    rw [regexSearchFrom, List.map_cons, containsSub]
    rw [patMatchAt_plain p (c :: cs) hp, List.map_cons, ih]

theorem iregexSearch_plain {q : String} (h : plainPattern q = true)
    (s : String) : iregexSearch q s = containsCI q s := by
  rw [iregexSearch, containsCI]
  exact regexSearchFrom_plain h s.data

theorem matchesQuery_orRegex_iff {pat : String} {fields : List String}
    {d : Doc} :
    matchesQuery (.orRegex pat fields) d = true ↔
      ∃ f ∈ fields, ∃ s, getField d f = some (Value.vStr s) ∧
        iregexSearch pat s = true := by
  rw [matchesQuery, List.any_eq_true]
  constructor
  · rintro ⟨f, hf, hm⟩
    refine ⟨f, hf, ?_⟩
    cases hg : getField d f with
    | none => rw [hg] at hm; exact Bool.noConfusion hm
    | some v =>
      cases v with
      | vStr s =>
        rw [hg] at hm
        exact ⟨s, rfl, hm⟩
      | vInt n => rw [hg] at hm; exact Bool.noConfusion hm
      | vFloat x => rw [hg] at hm; exact Bool.noConfusion hm
      | vDate dt => rw [hg] at hm; exact Bool.noConfusion hm
      | vOid o => rw [hg] at hm; exact Bool.noConfusion hm
  · rintro ⟨f, hf, s, hg, hm⟩
    exact ⟨f, hf, by rw [hg]; exact hm⟩

theorem list_generic_flat {docs : List Doc} {fields : List String}
    {limit : Int} {q : Option String} {page page_size : Option Int}
    (h : (pyTruthyInt page && pyTruthyInt page_size) = false) :
    list_generic docs fields limit q page page_size =
      .flat (serialize_many ((sortDesc (docs.filter (fun d =>
        matchesQuery (build_search_query q fields) d))).take limit.toNat)) := by
  simp [list_generic, h]

theorem list_generic_paged {docs : List Doc} {fields : List String}
    {limit : Int} {q : Option String} {page ps : Int}
    (h1 : 1 ≤ page) (h2 : 1 ≤ ps) :
    list_generic docs fields limit q (some page) (some ps) =
      .paged (serialize_many (((sortDesc (docs.filter (fun d =>
          matchesQuery (build_search_query q fields) d))).drop
          ((page - 1) * ps).toNat).take ps.toNat))
        ((docs.filter (fun d =>
          matchesQuery (build_search_query q fields) d)).length) := by
  have hpage : pyTruthyInt (some page) = true := by
    simp only [pyTruthyInt, bne_iff_ne, ne_eq]
    omega
  have hps : pyTruthyInt (some ps) = true := by
    simp only [pyTruthyInt, bne_iff_ne, ne_eq]
    omega
  simp [list_generic, hpage, hps, count_documents]

theorem length_take_le (l : List Doc) (n : Nat) : (l.take n).length ≤ n := by
  rw [List.length_take]
  exact min_le_left _ _

/-- Claim C3: for get-by-id, update and delete on every exposed entity kind,
a malformed identifier is rejected with a 400 client error before the store
is consulted, while a well-formed identifier matching no document yields a
404 not-found error with the entity's message. -/
theorem claim_C3 (db : DB) (id : String) (pu : StudentUpdate)
    (pt : TeacherUpdate) (pc : ClassUpdate) (pv : InvoiceUpdate) :
    (isValidObjectIdString id = false →
      get_student db id = .error ⟨400, "Invalid ID format"⟩ ∧
      update_student db id pu = .error ⟨400, "Invalid ID format"⟩ ∧
      delete_student db id = .error ⟨400, "Invalid ID format"⟩ ∧
      get_teacher db id = .error ⟨400, "Invalid ID format"⟩ ∧
      update_teacher db id pt = .error ⟨400, "Invalid ID format"⟩ ∧
      delete_teacher db id = .error ⟨400, "Invalid ID format"⟩ ∧
      get_class db id = .error ⟨400, "Invalid ID format"⟩ ∧
      update_class db id pc = .error ⟨400, "Invalid ID format"⟩ ∧
      delete_class db id = .error ⟨400, "Invalid ID format"⟩ ∧
      get_invoice db id = .error ⟨400, "Invalid ID format"⟩ ∧
      update_invoice db id pv = .error ⟨400, "Invalid ID format"⟩ ∧
      delete_invoice db id = .error ⟨400, "Invalid ID format"⟩) ∧
    (∀ oid : ObjectId, to_object_id id = .ok oid →
      (FreshId db.student oid →
        get_student db id = .error ⟨404, "Student not found"⟩ ∧
        update_student db id pu = .error ⟨404, "Student not found"⟩ ∧
        delete_student db id = .error ⟨404, "Student not found"⟩) ∧
      (FreshId db.teacher oid →
        get_teacher db id = .error ⟨404, "Teacher not found"⟩ ∧
        update_teacher db id pt = .error ⟨404, "Teacher not found"⟩ ∧
        delete_teacher db id = .error ⟨404, "Teacher not found"⟩) ∧
      (FreshId db.classroom oid →
        get_class db id = .error ⟨404, "Class not found"⟩ ∧
        update_class db id pc = .error ⟨404, "Class not found"⟩ ∧
        delete_class db id = .error ⟨404, "Class not found"⟩) ∧
      (FreshId db.feeinvoice oid →
        get_invoice db id = .error ⟨404, "Invoice not found"⟩ ∧
        update_invoice db id pv = .error ⟨404, "Invoice not found"⟩ ∧
        delete_invoice db id = .error ⟨404, "Invoice not found"⟩)) := by
  constructor
  · intro h
    refine ⟨get_generic_400 h, ?_, ?_, get_generic_400 h, ?_, ?_,
      get_generic_400 h, ?_, ?_, get_generic_400 h, ?_, ?_⟩
    · simp [update_student, update_generic_400 h]
    · simp [delete_student, delete_generic_400 h]
    · simp [update_teacher, update_generic_400 h]
    · simp [delete_teacher, delete_generic_400 h]
    · simp [update_class, update_generic_400 h]
    · simp [delete_class, delete_generic_400 h]
    · simp [update_invoice, update_generic_400 h]
    · simp [delete_invoice, delete_generic_400 h]
  · intro oid hok
    refine ⟨fun hf => ⟨?_, ?_, ?_⟩, fun hf => ⟨?_, ?_, ?_⟩,
      fun hf => ⟨?_, ?_, ?_⟩, fun hf => ⟨?_, ?_, ?_⟩⟩
    · exact get_generic_404 hok (find_one_eq_none hf)
    · simp [update_student, update_generic_404 hok (find_one_eq_none hf)]
    · simp [delete_student, delete_generic_404 hok (find_one_eq_none hf)]
    · exact get_generic_404 hok (find_one_eq_none hf)
    · simp [update_teacher, update_generic_404 hok (find_one_eq_none hf)]
    · simp [delete_teacher, delete_generic_404 hok (find_one_eq_none hf)]
    · exact get_generic_404 hok (find_one_eq_none hf)
    · simp [update_class, update_generic_404 hok (find_one_eq_none hf)]
    · simp [delete_class, delete_generic_404 hok (find_one_eq_none hf)]
    · exact get_generic_404 hok (find_one_eq_none hf)
    · simp [update_invoice, update_generic_404 hok (find_one_eq_none hf)]
    · simp [delete_invoice, delete_generic_404 hok (find_one_eq_none hf)]

/-- Witness for C3: on an empty store, a malformed id yields 400 and a
well-formed but absent id yields 404. -/
theorem claim_C3_witness :
    get_student ⟨[], [], [], []⟩ "not-an-id" =
        .error ⟨400, "Invalid ID format"⟩ ∧
      get_student ⟨[], [], [], []⟩ "000000000000000000000000" =
        .error ⟨404, "Student not found"⟩ := by
  constructor
  · exact ((claim_C3 ⟨[], [], [], []⟩ "not-an-id" {} {} {} {}).1 (by decide)).1
  · exact (((claim_C3 ⟨[], [], [], []⟩ "000000000000000000000000"
      {} {} {} {}).2 ⟨"000000000000000000000000"⟩ rfl).1 (by decide)).1

/-- Claim C10: supplying page = 0 or page_size = 0 disables pagination on
every list endpoint: the response equals the flat limited response obtained
with no pagination parameters. -/
theorem claim_C10 (db : DB) (limit : Int) (q : Option String)
    (page page_size : Option Int)
    (h : page = some 0 ∨ page_size = some 0) :
    (list_students db limit q page page_size =
        list_students db limit q none none ∧
      ∃ l, list_students db limit q page page_size = .flat l) ∧
    (list_teachers db limit q page page_size =
        list_teachers db limit q none none ∧
      ∃ l, list_teachers db limit q page page_size = .flat l) ∧
    (list_classes db limit q page page_size =
        list_classes db limit q none none ∧
      ∃ l, list_classes db limit q page page_size = .flat l) ∧
    (list_invoices db limit q page page_size =
        list_invoices db limit q none none ∧
      ∃ l, list_invoices db limit q page page_size = .flat l) := by
  have hcond : (pyTruthyInt page && pyTruthyInt page_size) = false := by
    cases h with
    | inl hp => rw [hp]; rfl
    | inr hp => rw [hp]; simp [pyTruthyInt]
  exact ⟨⟨(list_generic_flat hcond).trans (list_generic_flat (show (pyTruthyInt none && pyTruthyInt none) = false from rfl)).symm,
      ⟨_, list_generic_flat hcond⟩⟩,
    ⟨(list_generic_flat hcond).trans (list_generic_flat (show (pyTruthyInt none && pyTruthyInt none) = false from rfl)).symm,
      ⟨_, list_generic_flat hcond⟩⟩,
    ⟨(list_generic_flat hcond).trans (list_generic_flat (show (pyTruthyInt none && pyTruthyInt none) = false from rfl)).symm,
      ⟨_, list_generic_flat hcond⟩⟩,
    ⟨(list_generic_flat hcond).trans (list_generic_flat (show (pyTruthyInt none && pyTruthyInt none) = false from rfl)).symm,
      ⟨_, list_generic_flat hcond⟩⟩⟩

/-- Witness for C10: page = 0 with a positive page size falls back to the
flat response. -/
theorem claim_C10_witness :
    list_students ⟨[], [], [], []⟩ 50 none (some 0) (some 5) =
      list_students ⟨[], [], [], []⟩ 50 none none none :=
  (claim_C10 ⟨[], [], [], []⟩ 50 none (some 0) (some 5) (Or.inl rfl)).1.1

/-- Claim C5: when page ≥ 1 and page_size ≥ 1 are both supplied, every list
endpoint answers with items and a total, where the total counts all
documents matching the filter, the items are at most page_size many, and the
items are the slice of the sorted matches skipping (page-1)*page_size. -/
theorem claim_C5 (db : DB) (limit : Int) (q : Option String) (page ps : Int)
    (h1 : 1 ≤ page) (h2 : 1 ≤ ps) :
    (∃ items total,
      list_students db limit q (some page) (some ps) = .paged items total ∧
      total = (db.student.filter (fun d => matchesQuery
        (build_search_query q ["admission_number", "first_name", "last_name",
          "status"]) d)).length ∧
      items.length ≤ ps.toNat ∧
      items = serialize_many (((sortDesc (db.student.filter (fun d =>
        matchesQuery (build_search_query q ["admission_number", "first_name",
          "last_name", "status"]) d))).drop
        ((page - 1) * ps).toNat).take ps.toNat)) ∧
    (∃ items total,
      list_teachers db limit q (some page) (some ps) = .paged items total ∧
      total = (db.teacher.filter (fun d => matchesQuery
        (build_search_query q ["first_name", "last_name", "email",
          "status"]) d)).length ∧
      items.length ≤ ps.toNat ∧
      items = serialize_many (((sortDesc (db.teacher.filter (fun d =>
        matchesQuery (build_search_query q ["first_name", "last_name",
          "email", "status"]) d))).drop
        ((page - 1) * ps).toNat).take ps.toNat)) ∧
    (∃ items total,
      list_classes db limit q (some page) (some ps) = .paged items total ∧
      total = (db.classroom.filter (fun d => matchesQuery
        (build_search_query q ["name", "year", "class_teacher_id"])
          d)).length ∧
      items.length ≤ ps.toNat ∧
      items = serialize_many (((sortDesc (db.classroom.filter (fun d =>
        matchesQuery (build_search_query q ["name", "year",
          "class_teacher_id"]) d))).drop
        ((page - 1) * ps).toNat).take ps.toNat)) ∧
    (∃ items total,
      list_invoices db limit q (some page) (some ps) = .paged items total ∧
      total = (db.feeinvoice.filter (fun d => matchesQuery
        (build_search_query q ["invoice_number", "student_id",
          "status"]) d)).length ∧
      items.length ≤ ps.toNat ∧
      items = serialize_many (((sortDesc (db.feeinvoice.filter (fun d =>
        matchesQuery (build_search_query q ["invoice_number", "student_id",
          "status"]) d))).drop
        ((page - 1) * ps).toNat).take ps.toNat)) := by
  refine ⟨⟨_, _, list_generic_paged h1 h2, rfl, ?_, rfl⟩,
    ⟨_, _, list_generic_paged h1 h2, rfl, ?_, rfl⟩,
    ⟨_, _, list_generic_paged h1 h2, rfl, ?_, rfl⟩,
    ⟨_, _, list_generic_paged h1 h2, rfl, ?_, rfl⟩⟩ <;>
  · rw [length_serialize_many]
    exact length_take_le _ _

/-- Witness for C5 on an empty store with page 1 of size 2. -/
theorem claim_C5_witness :
    ∃ items total,
      list_students ⟨[], [], [], []⟩ 50 none (some 1) (some 2) =
        .paged items total ∧
      total = (([] : List Doc).filter (fun d => matchesQuery
        (build_search_query none ["admission_number", "first_name",
          "last_name", "status"]) d)).length ∧
      items.length ≤ (2 : Int).toNat ∧
      items = serialize_many (((sortDesc (([] : List Doc).filter (fun d =>
        matchesQuery (build_search_query none ["admission_number",
          "first_name", "last_name", "status"]) d))).drop
        (((1 : Int) - 1) * 2).toNat).take (2 : Int).toNat) :=
  (claim_C5 ⟨[], [], [], []⟩ 50 none 1 2 (by decide) (by decide)).1

/-- Claim C8: without both pagination parameters every list endpoint returns
a flat sequence of at most limit documents (the handler's limit parameter
defaults to 50), ordered by the creation-time field descending. -/
theorem claim_C8 (db : DB) (limit : Int) (q : Option String)
    (page page_size : Option Int)
    (h : pyTruthyInt page = false ∨ pyTruthyInt page_size = false) :
    (∃ l, list_students db limit q page page_size = .flat l ∧
      l.length ≤ limit.toNat ∧ List.Sorted docGe l) ∧
    (∃ l, list_teachers db limit q page page_size = .flat l ∧
      l.length ≤ limit.toNat ∧ List.Sorted docGe l) ∧
    (∃ l, list_classes db limit q page page_size = .flat l ∧
      l.length ≤ limit.toNat ∧ List.Sorted docGe l) ∧
    (∃ l, list_invoices db limit q page page_size = .flat l ∧
      l.length ≤ limit.toNat ∧ List.Sorted docGe l) := by
  have hcond : (pyTruthyInt page && pyTruthyInt page_size) = false := by
    cases h with
    | inl hp => rw [hp, Bool.false_and]
    | inr hp => rw [hp, Bool.and_false]
  refine ⟨⟨_, list_generic_flat hcond, ?_, ?_⟩,
    ⟨_, list_generic_flat hcond, ?_, ?_⟩,
    ⟨_, list_generic_flat hcond, ?_, ?_⟩,
    ⟨_, list_generic_flat hcond, ?_, ?_⟩⟩ <;>
  first
  | · rw [length_serialize_many]
      exact length_take_le _ _
  | · exact sorted_serialize_many (sorted_take (sortDesc_sorted _) _)

/-- Witness for C8 with no pagination parameters on an empty store. -/
theorem claim_C8_witness :
    ∃ l, list_students ⟨[], [], [], []⟩ 50 none none none = .flat l ∧
      l.length ≤ (50 : Int).toNat ∧ List.Sorted docGe l :=
  (claim_C8 ⟨[], [], [], []⟩ 50 none none none (Or.inl rfl)).1

/-- Counterexample for C9 as stated: two runs in which the connection-string
value is present (once empty, once non-empty) produce different
configuration fields, because the endpoint tests truthiness rather than
presence. -/
theorem claim_C9_counterexample :
    (Env.database_url ⟨some "", some "x"⟩).isSome = true ∧
    (Env.database_url ⟨some "mongodb://db", some "x"⟩).isSome = true ∧
    (test_database ⟨some "", some "x"⟩ .uninitialized).database_url ≠
      (test_database ⟨some "mongodb://db", some "x"⟩
        .uninitialized).database_url := by
  refine ⟨rfl, rfl, ?_⟩
  decide

/-- Claim C9 (amended): the diagnostics endpoint reports only the truthiness
(set and non-empty) of the two configuration values, never their contents:
any two runs in which both values are present and non-empty have identical
configuration fields, both fixed strings; a connectivity failure is caught
and reported in the response body. -/
theorem claim_C9_amended (e1 e2 : Env) (d1 d2 : DbState)
    (h1u : pyTruthyStr e1.database_url = true)
    (h1n : pyTruthyStr e1.database_name = true)
    (h2u : pyTruthyStr e2.database_url = true)
    (h2n : pyTruthyStr e2.database_name = true) :
    ((test_database e1 d1).database_url = (test_database e2 d2).database_url ∧
      (test_database e1 d1).database_name =
        (test_database e2 d2).database_name ∧
      (test_database e1 d1).database_url = some "✅ Set" ∧
      (test_database e1 d1).database_name = some "✅ Set") ∧
    (∀ (env : Env) (msg : String),
      (test_database env (.importError msg)).database =
        "❌ Error: " ++ msg.take 80) ∧
    (∀ (env : Env) (name e : String),
      (test_database env (.connected name (.error e))).database =
        "⚠️  Connected but Error: " ++ e.take 80) := by
  refine ⟨⟨?_, ?_, ?_, ?_⟩, ?_, ?_⟩
  · simp [test_database, h1u, h2u]
  · simp [test_database, h1n, h2n]
  · simp [test_database, h1u]
  · simp [test_database, h1n]
  · intro env msg
    simp [test_database]
  · intro env name e
    simp [test_database]

/-- Witness for the amended C9: two connected runs with different secrets
report the same fixed configuration fields. -/
theorem claim_C9_witness :
    (test_database ⟨some "mongodb://a", some "db1"⟩
        (.connected "db1" (.ok ["student"]))).database_url =
      (test_database ⟨some "postgres://b", some "db2"⟩
        (.connected "db2" (.ok []))).database_url ∧
    (test_database ⟨some "mongodb://a", some "db1"⟩
        (.connected "db1" (.ok ["student"]))).database_name =
      (test_database ⟨some "postgres://b", some "db2"⟩
        (.connected "db2" (.ok []))).database_name ∧
    (test_database ⟨some "mongodb://a", some "db1"⟩
        (.connected "db1" (.ok ["student"]))).database_url = some "✅ Set" ∧
    (test_database ⟨some "mongodb://a", some "db1"⟩
        (.connected "db1" (.ok ["student"]))).database_name = some "✅ Set" :=
  (claim_C9_amended ⟨some "mongodb://a", some "db1"⟩
    ⟨some "postgres://b", some "db2"⟩ (.connected "db1" (.ok ["student"]))
    (.connected "db2" (.ok [])) rfl rfl rfl rfl).1

/-- Counterexample for C4 as stated: with search text "j.n", the list
endpoint returns a student none of whose searchable fields contains "j.n"
as a case-insensitive substring — the code hands the search text to the
store as a regex pattern, and the dot matches the letter a of Jane. -/
theorem claim_C4_counterexample :
    list_students
        ⟨[[("_id", Value.vOid ⟨"0123456789abcdef01234567"⟩),
          ("first_name", Value.vStr "Jane")]], [], [], []⟩
        50 (some "j.n") none none =
      .flat [[("_id", Value.vStr "0123456789abcdef01234567"),
        ("first_name", Value.vStr "Jane")]] ∧
    claimSubstrMatch "j.n"
      ["admission_number", "first_name", "last_name", "status"]
      [("_id", Value.vOid ⟨"0123456789abcdef01234567"⟩),
        ("first_name", Value.vStr "Jane")] = false := by
  constructor
  · rfl
  · rfl

/-- Claim C4 (amended): with no or empty search text the filter matches
every document; with search text q the filter matches exactly the documents
in which some searchable field is a string matched by q read as a
case-insensitive regex pattern, which coincides with case-insensitive
substring containment whenever q is free of regex metacharacters. -/
theorem claim_C4_amended (q : String) (fields : List String) (d : Doc)
    (hq : q ≠ "") :
    (matchesQuery (build_search_query none fields) d = true) ∧
    (matchesQuery (build_search_query (some "") fields) d = true) ∧
    (matchesQuery (build_search_query (some q) fields) d = true ↔
      ∃ f ∈ fields, ∃ s, getField d f = some (Value.vStr s) ∧
        iregexSearch q s = true) ∧
    (plainPattern q = true →
      matchesQuery (build_search_query (some q) fields) d =
        claimSubstrMatch q fields d) := by
  have hne : (q == "") = false := by
    rw [beq_eq_false_iff_ne]
    exact hq
  refine ⟨rfl, rfl, ?_, ?_⟩
  · rw [build_search_query]
    simp only [hne, Bool.false_eq_true, if_false]
    exact matchesQuery_orRegex_iff
  · intro hplain
    rw [build_search_query]
    simp only [hne, Bool.false_eq_true, if_false]
    rw [matchesQuery, claimSubstrMatch]
    have hfun : (fun f => match getField d f with
        | some (.vStr s) => iregexSearch q s
        | _ => false) = (fun f => match getField d f with
        | some (.vStr s) => containsCI q s
        | _ => false) := by
      funext f
      cases getField d f with
      | none => rfl
      | some v => cases v <;> simp [iregexSearch_plain hplain]
    rw [hfun]

/-- Witness for the amended C4: searching "jan" (no metacharacters) matches
a document through plain case-insensitive substring containment. -/
theorem claim_C4_witness :
    (matchesQuery (build_search_query none
      ["admission_number", "first_name", "last_name", "status"])
      [("first_name", Value.vStr "Jane")] = true) ∧
    (matchesQuery (build_search_query (some "")
      ["admission_number", "first_name", "last_name", "status"])
      [("first_name", Value.vStr "Jane")] = true) ∧
    (matchesQuery (build_search_query (some "jan")
      ["admission_number", "first_name", "last_name", "status"])
      [("first_name", Value.vStr "Jane")] = true ↔
      ∃ f ∈ ["admission_number", "first_name", "last_name", "status"],
        ∃ s, getField [("first_name", Value.vStr "Jane")] f =
          some (Value.vStr s) ∧ iregexSearch "jan" s = true) ∧
    (plainPattern "jan" = true →
      matchesQuery (build_search_query (some "jan")
        ["admission_number", "first_name", "last_name", "status"])
        [("first_name", Value.vStr "Jane")] =
      claimSubstrMatch "jan"
        ["admission_number", "first_name", "last_name", "status"]
        [("first_name", Value.vStr "Jane")]) :=
  claim_C4_amended "jan"
    ["admission_number", "first_name", "last_name", "status"]
    [("first_name", Value.vStr "Jane")] (by decide)

theorem create_student_eq (db : DB) (oid : ObjectId) (p : StudentCreate) :
    create_student db oid p = (⟨oid.hex⟩, { db with student := db.student ++
      [("_id", Value.vOid oid) ::
        setdefaultField p.dump "status" (Value.vStr "active")] }) := rfl

theorem create_teacher_eq (db : DB) (oid : ObjectId) (p : TeacherCreate) :
    create_teacher db oid p = (⟨oid.hex⟩, { db with teacher := db.teacher ++
      [("_id", Value.vOid oid) :: p.dump] }) := rfl

theorem create_class_eq (db : DB) (oid : ObjectId) (p : ClassCreate) :
    create_class db oid p = (⟨oid.hex⟩, { db with classroom := db.classroom ++
      [("_id", Value.vOid oid) :: p.dump] }) := rfl

theorem create_invoice_eq (db : DB) (oid : ObjectId) (p : InvoiceCreate) :
    create_invoice db oid p = (⟨oid.hex⟩, { db with feeinvoice :=
      db.feeinvoice ++ [("_id", Value.vOid oid) ::
        setdefaultField p.dump "status" (Value.vStr "unpaid")] }) := rfl

theorem keys_setdefaultField_sublist (d : Doc) (k : String) (v : Value) :
    List.Sublist (keys (setdefaultField d k v)) (keys d ++ [k]) := by
  unfold setdefaultField
  cases h : d.any (fun p => p.1 == k) with
  | true =>
    simp only [h, if_true]
    exact List.sublist_append_left _ _
  | false =>
    simp only [h, Bool.false_eq_true, if_false]
    rw [keys_append]
    exact List.Sublist.refl _

theorem student_data_no_id (p : StudentCreate) :
    ∀ q ∈ setdefaultField p.dump "status" (Value.vStr "active"),
      q.1 ≠ "_id" := by
  have hsub : List.Sublist
      (keys (setdefaultField p.dump "status" (Value.vStr "active")))
      (["admission_number", "first_name", "last_name", "class_id",
        "status"] ++ ["status"]) :=
    (keys_setdefaultField_sublist _ _ _).trans
      (List.Sublist.append (studentCreate_dump_keys p) (List.Sublist.refl _))
  exact no_id_of_keys_sublist hsub (by decide)

theorem invoice_data_no_id (p : InvoiceCreate) :
    ∀ q ∈ setdefaultField p.dump "status" (Value.vStr "unpaid"),
      q.1 ≠ "_id" := by
  have hsub : List.Sublist
      (keys (setdefaultField p.dump "status" (Value.vStr "unpaid")))
      (["student_id", "invoice_number", "issue_date", "due_date",
        "amount"] ++ ["status"]) :=
    (keys_setdefaultField_sublist _ _ _).trans
      (List.Sublist.append (invoiceCreate_dump_keys p) (List.Sublist.refl _))
  exact no_id_of_keys_sublist hsub (by decide)

/-- Claim C1: on every exposed entity kind, creating a document and fetching
it back through the returned identifier yields exactly the submitted fields
plus the applied defaults, with the identifier in string form. -/
theorem claim_C1 (db : DB) (oid : ObjectId) (hc : oid.Canonical)
    (ps : StudentCreate) (pt : TeacherCreate) (pc : ClassCreate)
    (pv : InvoiceCreate) (hs : FreshId db.student oid)
    (ht : FreshId db.teacher oid) (hcl : FreshId db.classroom oid)
    (hin : FreshId db.feeinvoice oid) :
    ((create_student db oid ps).1 = ⟨oid.hex⟩ ∧
      get_student (create_student db oid ps).2 oid.hex =
        .ok (("_id", Value.vStr oid.hex) ::
          setdefaultField ps.dump "status" (Value.vStr "active"))) ∧
    ((create_teacher db oid pt).1 = ⟨oid.hex⟩ ∧
      get_teacher (create_teacher db oid pt).2 oid.hex =
        .ok (("_id", Value.vStr oid.hex) :: pt.dump)) ∧
    ((create_class db oid pc).1 = ⟨oid.hex⟩ ∧
      get_class (create_class db oid pc).2 oid.hex =
        .ok (("_id", Value.vStr oid.hex) :: pc.dump)) ∧
    ((create_invoice db oid pv).1 = ⟨oid.hex⟩ ∧
      get_invoice (create_invoice db oid pv).2 oid.hex =
        .ok (("_id", Value.vStr oid.hex) ::
          setdefaultField pv.dump "status" (Value.vStr "unpaid"))) := by
  refine ⟨⟨rfl, ?_⟩, ⟨rfl, ?_⟩, ⟨rfl, ?_⟩, ⟨rfl, ?_⟩⟩
  · rw [create_student_eq]
    exact get_generic_insert hc hs (student_data_no_id ps) "Student not found"
  · rw [create_teacher_eq]
    exact get_generic_insert hc ht
      (no_id_of_keys_sublist (teacherCreate_dump_keys pt) (by decide)) "Teacher not found"
  · rw [create_class_eq]
    exact get_generic_insert hc hcl
      (no_id_of_keys_sublist (classCreate_dump_keys pc) (by decide)) "Class not found"
  · rw [create_invoice_eq]
    exact get_generic_insert hc hin (invoice_data_no_id pv) "Invoice not found"

/-- Witness for C1: creating a student on an empty store and reading it back
returns the submitted fields plus the defaulted status. -/
theorem claim_C1_witness :
    get_student (create_student ⟨[], [], [], []⟩
        ⟨"0123456789abcdef01234567"⟩ ⟨"A100", "Jane", "Doe", none, none⟩).2
        "0123456789abcdef01234567" =
      .ok (("_id", Value.vStr "0123456789abcdef01234567") ::
        setdefaultField
          (StudentCreate.dump ⟨"A100", "Jane", "Doe", none, none⟩)
          "status" (Value.vStr "active")) :=
  (claim_C1 ⟨[], [], [], []⟩ ⟨"0123456789abcdef01234567"⟩ (by decide)
    ⟨"A100", "Jane", "Doe", none, none⟩ ⟨"Tess", "Cher", "t@e.x"⟩
    ⟨"Grade 10 - A", 2024⟩ ⟨"s1", "INV-1", ⟨2024, 1, 2⟩, ⟨2024, 2, 2⟩, 100⟩
    (by decide) (by decide) (by decide) (by decide)).1.2

theorem getField_nil (k : String) : getField [] k = none := rfl

theorem student_setdefault_none {p : StudentCreate} (hp : p.status = none) :
    setdefaultField p.dump "status" (Value.vStr "active") =
      p.dump ++ [("status", Value.vStr "active")] := by
  unfold setdefaultField
  have hany : p.dump.any (fun q => q.1 == "status") = false := by
    cases hcl : p.class_id <;>
      simp [StudentCreate.dump, optField, hp, hcl]
  simp [hany]

theorem invoice_setdefault (p : InvoiceCreate) :
    setdefaultField p.dump "status" (Value.vStr "unpaid") =
      p.dump ++ [("status", Value.vStr "unpaid")] := by
  unfold setdefaultField
  have hany : p.dump.any (fun q => q.1 == "status") = false := by
    simp [InvoiceCreate.dump]
  simp [hany]

/-- Claim C6: a Student create payload omitting status is inserted with
status active, a FeeInvoice create payload (whose schema has no status
field) is inserted with status unpaid, every supplied field is stored as
given, and the assigned identifier is returned in string form. -/
theorem claim_C6 (db : DB) (oid : ObjectId) (p : StudentCreate)
    (pv : InvoiceCreate) (hp : p.status = none) :
    ((create_student db oid p).1 = ⟨oid.hex⟩ ∧
      (create_student db oid p).2 = { db with student := db.student ++
        [("_id", Value.vOid oid) ::
          (p.dump ++ [("status", Value.vStr "active")])] } ∧
      getField (("_id", Value.vOid oid) ::
          (p.dump ++ [("status", Value.vStr "active")])) "status" =
        some (Value.vStr "active") ∧
      getField (("_id", Value.vOid oid) ::
          (p.dump ++ [("status", Value.vStr "active")])) "admission_number" =
        some (Value.vStr p.admission_number) ∧
      getField (("_id", Value.vOid oid) ::
          (p.dump ++ [("status", Value.vStr "active")])) "first_name" =
        some (Value.vStr p.first_name) ∧
      getField (("_id", Value.vOid oid) ::
          (p.dump ++ [("status", Value.vStr "active")])) "last_name" =
        some (Value.vStr p.last_name) ∧
      getField (("_id", Value.vOid oid) ::
          (p.dump ++ [("status", Value.vStr "active")])) "class_id" =
        p.class_id.map Value.vStr) ∧
    ((create_invoice db oid pv).1 = ⟨oid.hex⟩ ∧
      (create_invoice db oid pv).2 = { db with feeinvoice := db.feeinvoice ++
        [("_id", Value.vOid oid) ::
          (pv.dump ++ [("status", Value.vStr "unpaid")])] } ∧
      getField (("_id", Value.vOid oid) ::
          (pv.dump ++ [("status", Value.vStr "unpaid")])) "status" =
        some (Value.vStr "unpaid") ∧
      getField (("_id", Value.vOid oid) ::
          (pv.dump ++ [("status", Value.vStr "unpaid")])) "student_id" =
        some (Value.vStr pv.student_id) ∧
      getField (("_id", Value.vOid oid) ::
          (pv.dump ++ [("status", Value.vStr "unpaid")])) "invoice_number" =
        some (Value.vStr pv.invoice_number) ∧
      getField (("_id", Value.vOid oid) ::
          (pv.dump ++ [("status", Value.vStr "unpaid")])) "issue_date" =
        some (Value.vDate pv.issue_date) ∧
      getField (("_id", Value.vOid oid) ::
          (pv.dump ++ [("status", Value.vStr "unpaid")])) "due_date" =
        some (Value.vDate pv.due_date) ∧
      getField (("_id", Value.vOid oid) ::
          (pv.dump ++ [("status", Value.vStr "unpaid")])) "amount" =
        some (Value.vFloat pv.amount)) := by
  refine ⟨⟨rfl, ?_, ?_, ?_, ?_, ?_, ?_⟩, ⟨rfl, ?_, ?_, ?_, ?_, ?_, ?_, ?_⟩⟩
  · rw [create_student_eq, student_setdefault_none hp]
  · cases hcl : p.class_id <;>
      simp [StudentCreate.dump, optField, hp, hcl, getField_cons, getField_nil]
  · cases hcl : p.class_id <;>
      simp [StudentCreate.dump, optField, hp, hcl, getField_cons, getField_nil]
  · cases hcl : p.class_id <;>
      simp [StudentCreate.dump, optField, hp, hcl, getField_cons, getField_nil]
  · cases hcl : p.class_id <;>
      simp [StudentCreate.dump, optField, hp, hcl, getField_cons, getField_nil]
  · cases hcl : p.class_id <;>
      simp [StudentCreate.dump, optField, hp, hcl, getField_cons, getField_nil]
  · rw [create_invoice_eq, invoice_setdefault]
  · simp [InvoiceCreate.dump, getField_cons]
  · simp [InvoiceCreate.dump, getField_cons]
  · simp [InvoiceCreate.dump, getField_cons]
  · simp [InvoiceCreate.dump, getField_cons]
  · simp [InvoiceCreate.dump, getField_cons]
  · simp [InvoiceCreate.dump, getField_cons]

/-- Witness for C6: a concrete student payload without status and a concrete
invoice payload get the declared defaults. -/
theorem claim_C6_witness :
    getField (("_id", Value.vOid ⟨"0123456789abcdef01234567"⟩) ::
        (StudentCreate.dump ⟨"A100", "Jane", "Doe", none, none⟩ ++
          [("status", Value.vStr "active")])) "status" =
      some (Value.vStr "active") :=
  (claim_C6 ⟨[], [], [], []⟩ ⟨"0123456789abcdef01234567"⟩
    ⟨"A100", "Jane", "Doe", none, none⟩
    ⟨"s1", "INV-1", ⟨2024, 1, 2⟩, ⟨2024, 2, 2⟩, 100⟩ rfl).1.2.2.1

/-- Claim C2: on every entity kind, updating an existing document sets
exactly the fields present and non-None in the request body, leaves every
other field of that document unchanged, stores the result under the same
identifier, and answers with updated = true. -/
theorem claim_C2 (db : DB) (ids idt idc idv : String)
    (oids oidt oidc oidv : ObjectId) (ds dt dc dv : Doc)
    (pu : StudentUpdate) (pt : TeacherUpdate) (pc : ClassUpdate)
    (pv : InvoiceUpdate)
    (hs1 : to_object_id ids = .ok oids)
    (hs2 : find_one db.student oids = some ds)
    (ht1 : to_object_id idt = .ok oidt)
    (ht2 : find_one db.teacher oidt = some dt)
    (hc1 : to_object_id idc = .ok oidc)
    (hc2 : find_one db.classroom oidc = some dc)
    (hv1 : to_object_id idv = .ok oidv)
    (hv2 : find_one db.feeinvoice oidv = some dv) :
    (update_student db ids pu =
        .ok (⟨true⟩, { db with student := (update_one db.student oids
          pu.dump).2 }) ∧
      find_one (update_one db.student oids pu.dump).2 oids =
        some (applySet ds pu.dump) ∧
      (∀ k, getField pu.dump k = none →
        getField (applySet ds pu.dump) k = getField ds k) ∧
      (∀ k v, getField pu.dump k = some v →
        getField (applySet ds pu.dump) k = some v)) ∧
    (update_teacher db idt pt =
        .ok (⟨true⟩, { db with teacher := (update_one db.teacher oidt
          pt.dump).2 }) ∧
      find_one (update_one db.teacher oidt pt.dump).2 oidt =
        some (applySet dt pt.dump) ∧
      (∀ k, getField pt.dump k = none →
        getField (applySet dt pt.dump) k = getField dt k) ∧
      (∀ k v, getField pt.dump k = some v →
        getField (applySet dt pt.dump) k = some v)) ∧
    (update_class db idc pc =
        .ok (⟨true⟩, { db with classroom := (update_one db.classroom oidc
          pc.dump).2 }) ∧
      find_one (update_one db.classroom oidc pc.dump).2 oidc =
        some (applySet dc pc.dump) ∧
      (∀ k, getField pc.dump k = none →
        getField (applySet dc pc.dump) k = getField dc k) ∧
      (∀ k v, getField pc.dump k = some v →
        getField (applySet dc pc.dump) k = some v)) ∧
    (update_invoice db idv pv =
        .ok (⟨true⟩, { db with feeinvoice := (update_one db.feeinvoice oidv
          pv.dump).2 }) ∧
      find_one (update_one db.feeinvoice oidv pv.dump).2 oidv =
        some (applySet dv pv.dump) ∧
      (∀ k, getField pv.dump k = none →
        getField (applySet dv pv.dump) k = getField dv k) ∧
      (∀ k v, getField pv.dump k = some v →
        getField (applySet dv pv.dump) k = some v)) := by
  obtain ⟨hups, hfinds⟩ := update_generic_found "Student not found"
    hs1 hs2 (getField_dump_eq_none_of_id (studentUpdate_dump_keys pu) (by decide))
  obtain ⟨hupt, hfindt⟩ := update_generic_found "Teacher not found"
    ht1 ht2 (getField_dump_eq_none_of_id (teacherUpdate_dump_keys pt) (by decide))
  obtain ⟨hupc, hfindc⟩ := update_generic_found "Class not found"
    hc1 hc2 (getField_dump_eq_none_of_id (classUpdate_dump_keys pc) (by decide))
  obtain ⟨hupv, hfindv⟩ := update_generic_found "Invoice not found"
    hv1 hv2 (getField_dump_eq_none_of_id (invoiceUpdate_dump_keys pv) (by decide))
  refine ⟨⟨?_, hfinds, ?_, ?_⟩, ⟨?_, hfindt, ?_, ?_⟩,
    ⟨?_, hfindc, ?_, ?_⟩, ⟨?_, hfindv, ?_, ?_⟩⟩
  · simp [update_student, hups]
  · exact fun k hk => getField_applySet_of_none ds hk
  · exact fun k v hkv => getField_applySet_of_some
      (nodup_keys_of_sublist (studentUpdate_dump_keys pu) (by decide)) hkv ds
  · simp [update_teacher, hupt]
  · exact fun k hk => getField_applySet_of_none dt hk
  · exact fun k v hkv => getField_applySet_of_some
      (nodup_keys_of_sublist (teacherUpdate_dump_keys pt) (by decide)) hkv dt
  · simp [update_class, hupc]
  · exact fun k hk => getField_applySet_of_none dc hk
  · exact fun k v hkv => getField_applySet_of_some
      (nodup_keys_of_sublist (classUpdate_dump_keys pc) (by decide)) hkv dc
  · simp [update_invoice, hupv]
  · exact fun k hk => getField_applySet_of_none dv hk
  · exact fun k v hkv => getField_applySet_of_some
      (nodup_keys_of_sublist (invoiceUpdate_dump_keys pv) (by decide)) hkv dv

/-- Witness for C2: renaming a student's first_name answers updated = true. -/
theorem claim_C2_witness :
    update_student
        ⟨[[("_id", Value.vOid ⟨"0123456789abcdef01234567"⟩),
          ("first_name", Value.vStr "Jane")]],
          [[("_id", Value.vOid ⟨"0123456789abcdef01234567"⟩),
            ("first_name", Value.vStr "Jane")]],
          [[("_id", Value.vOid ⟨"0123456789abcdef01234567"⟩),
            ("first_name", Value.vStr "Jane")]],
          [[("_id", Value.vOid ⟨"0123456789abcdef01234567"⟩),
            ("first_name", Value.vStr "Jane")]]⟩
        "0123456789abcdef01234567" ⟨none, some "Janet", none, none, none⟩ =
      .ok (⟨true⟩,
        { (⟨[[("_id", Value.vOid ⟨"0123456789abcdef01234567"⟩),
            ("first_name", Value.vStr "Jane")]],
            [[("_id", Value.vOid ⟨"0123456789abcdef01234567"⟩),
              ("first_name", Value.vStr "Jane")]],
            [[("_id", Value.vOid ⟨"0123456789abcdef01234567"⟩),
              ("first_name", Value.vStr "Jane")]],
            [[("_id", Value.vOid ⟨"0123456789abcdef01234567"⟩),
              ("first_name", Value.vStr "Jane")]]⟩ : DB) with student :=
          (update_one
            [[("_id", Value.vOid ⟨"0123456789abcdef01234567"⟩),
              ("first_name", Value.vStr "Jane")]]
            ⟨"0123456789abcdef01234567"⟩
            (StudentUpdate.dump
              ⟨none, some "Janet", none, none, none⟩)).2 }) :=
  (claim_C2
    ⟨[[("_id", Value.vOid ⟨"0123456789abcdef01234567"⟩),
      ("first_name", Value.vStr "Jane")]],
      [[("_id", Value.vOid ⟨"0123456789abcdef01234567"⟩),
        ("first_name", Value.vStr "Jane")]],
      [[("_id", Value.vOid ⟨"0123456789abcdef01234567"⟩),
        ("first_name", Value.vStr "Jane")]],
      [[("_id", Value.vOid ⟨"0123456789abcdef01234567"⟩),
        ("first_name", Value.vStr "Jane")]]⟩
    "0123456789abcdef01234567" "0123456789abcdef01234567"
    "0123456789abcdef01234567" "0123456789abcdef01234567"
    ⟨"0123456789abcdef01234567"⟩ ⟨"0123456789abcdef01234567"⟩
    ⟨"0123456789abcdef01234567"⟩ ⟨"0123456789abcdef01234567"⟩
    [("_id", Value.vOid ⟨"0123456789abcdef01234567"⟩),
      ("first_name", Value.vStr "Jane")]
    [("_id", Value.vOid ⟨"0123456789abcdef01234567"⟩),
      ("first_name", Value.vStr "Jane")]
    [("_id", Value.vOid ⟨"0123456789abcdef01234567"⟩),
      ("first_name", Value.vStr "Jane")]
    [("_id", Value.vOid ⟨"0123456789abcdef01234567"⟩),
      ("first_name", Value.vStr "Jane")]
    ⟨none, some "Janet", none, none, none⟩ {} {} {}
    rfl rfl rfl rfl rfl rfl rfl rfl).1.1

theorem delete_then_get {docs : List Doc} {msg id : String} {oid : ObjectId}
    (hto : to_object_id id = .ok oid) (hu : UniqueIds docs)
    {resp : DeletedResp} {rest : List Doc}
    (hgen : delete_generic docs msg id = .ok (resp, rest)) :
    resp = ⟨true⟩ ∧ get_generic rest msg id = .error ⟨404, msg⟩ := by
  obtain ⟨h1, h2⟩ := delete_generic_ok hto hu hgen
  exact ⟨h1, get_generic_404 hto h2⟩

/-- Claim C7: on every entity kind, a successful delete answers
deleted = true and a subsequent get-by-id on the same identifier is a 404;
a delete matching no document is itself a 404. -/
theorem claim_C7 (db : DB) (id : String) :
    ((∀ (resp : DeletedResp) (db2 : DB), UniqueIds db.student →
        delete_student db id = .ok (resp, db2) →
        resp = ⟨true⟩ ∧
          get_student db2 id = .error ⟨404, "Student not found"⟩) ∧
      (∀ oid : ObjectId, to_object_id id = .ok oid →
        FreshId db.student oid →
        delete_student db id = .error ⟨404, "Student not found"⟩)) ∧
    ((∀ (resp : DeletedResp) (db2 : DB), UniqueIds db.teacher →
        delete_teacher db id = .ok (resp, db2) →
        resp = ⟨true⟩ ∧
          get_teacher db2 id = .error ⟨404, "Teacher not found"⟩) ∧
      (∀ oid : ObjectId, to_object_id id = .ok oid →
        FreshId db.teacher oid →
        delete_teacher db id = .error ⟨404, "Teacher not found"⟩)) ∧
    ((∀ (resp : DeletedResp) (db2 : DB), UniqueIds db.classroom →
        delete_class db id = .ok (resp, db2) →
        resp = ⟨true⟩ ∧
          get_class db2 id = .error ⟨404, "Class not found"⟩) ∧
      (∀ oid : ObjectId, to_object_id id = .ok oid →
        FreshId db.classroom oid →
        delete_class db id = .error ⟨404, "Class not found"⟩)) ∧
    ((∀ (resp : DeletedResp) (db2 : DB), UniqueIds db.feeinvoice →
        delete_invoice db id = .ok (resp, db2) →
        resp = ⟨true⟩ ∧
          get_invoice db2 id = .error ⟨404, "Invoice not found"⟩) ∧
      (∀ oid : ObjectId, to_object_id id = .ok oid →
        FreshId db.feeinvoice oid →
        delete_invoice db id = .error ⟨404, "Invoice not found"⟩)) := by
  refine ⟨⟨?_, ?_⟩, ⟨?_, ?_⟩, ⟨?_, ?_⟩, ⟨?_, ?_⟩⟩
  · intro resp db2 hu hdel
    cases hto : to_object_id id with
    | error e => simp [delete_student, delete_generic, hto] at hdel
    | ok oid =>
      cases hgen : delete_generic db.student "Student not found" id with
      | error e => simp [delete_student, hgen] at hdel
      | ok r =>
        simp only [delete_student, hgen, Except.ok.injEq,
          Prod.mk.injEq] at hdel
        obtain ⟨hresp, hget⟩ := delete_then_get hto hu hgen
        refine ⟨by rw [← hdel.1]; exact hresp, ?_⟩
        rw [← hdel.2]
        exact hget
  · intro oid hto hf
    simp [delete_student, delete_generic_404 hto (find_one_eq_none hf)]
  · intro resp db2 hu hdel
    cases hto : to_object_id id with
    | error e => simp [delete_teacher, delete_generic, hto] at hdel
    | ok oid =>
      cases hgen : delete_generic db.teacher "Teacher not found" id with
      | error e => simp [delete_teacher, hgen] at hdel
      | ok r =>
        simp only [delete_teacher, hgen, Except.ok.injEq,
          Prod.mk.injEq] at hdel
        obtain ⟨hresp, hget⟩ := delete_then_get hto hu hgen
        refine ⟨by rw [← hdel.1]; exact hresp, ?_⟩
        rw [← hdel.2]
        exact hget
  · intro oid hto hf
    simp [delete_teacher, delete_generic_404 hto (find_one_eq_none hf)]
  · intro resp db2 hu hdel
    cases hto : to_object_id id with
    | error e => simp [delete_class, delete_generic, hto] at hdel
    | ok oid =>
      cases hgen : delete_generic db.classroom "Class not found" id with
      | error e => simp [delete_class, hgen] at hdel
      | ok r =>
        simp only [delete_class, hgen, Except.ok.injEq,
          Prod.mk.injEq] at hdel
        obtain ⟨hresp, hget⟩ := delete_then_get hto hu hgen
        refine ⟨by rw [← hdel.1]; exact hresp, ?_⟩
        rw [← hdel.2]
        exact hget
  · intro oid hto hf
    simp [delete_class, delete_generic_404 hto (find_one_eq_none hf)]
  · intro resp db2 hu hdel
    cases hto : to_object_id id with
    | error e => simp [delete_invoice, delete_generic, hto] at hdel
    | ok oid =>
      cases hgen : delete_generic db.feeinvoice "Invoice not found" id with
      | error e => simp [delete_invoice, hgen] at hdel
      | ok r =>
        simp only [delete_invoice, hgen, Except.ok.injEq,
          Prod.mk.injEq] at hdel
        obtain ⟨hresp, hget⟩ := delete_then_get hto hu hgen
        refine ⟨by rw [← hdel.1]; exact hresp, ?_⟩
        rw [← hdel.2]
        exact hget
  · intro oid hto hf
    simp [delete_invoice, delete_generic_404 hto (find_one_eq_none hf)]

/-- Witness for C7: deleting the only student and fetching it again is a
404. -/
theorem claim_C7_witness :
    get_student
        ⟨[], [[("_id", Value.vOid ⟨"0123456789abcdef01234567"⟩)]],
          [[("_id", Value.vOid ⟨"0123456789abcdef01234567"⟩)]],
          [[("_id", Value.vOid ⟨"0123456789abcdef01234567"⟩)]]⟩
        "0123456789abcdef01234567" =
      .error ⟨404, "Student not found"⟩ :=
  ((claim_C7
    ⟨[[("_id", Value.vOid ⟨"0123456789abcdef01234567"⟩)]],
      [[("_id", Value.vOid ⟨"0123456789abcdef01234567"⟩)]],
      [[("_id", Value.vOid ⟨"0123456789abcdef01234567"⟩)]],
      [[("_id", Value.vOid ⟨"0123456789abcdef01234567"⟩)]]⟩
    "0123456789abcdef01234567").1.1 ⟨true⟩
    ⟨[], [[("_id", Value.vOid ⟨"0123456789abcdef01234567"⟩)]],
      [[("_id", Value.vOid ⟨"0123456789abcdef01234567"⟩)]],
      [[("_id", Value.vOid ⟨"0123456789abcdef01234567"⟩)]]⟩
    (by decide) rfl).2
